import Mathlib

/-!
BetterCallApi: request building and response normalisation.

A shallow embedding of `src/api/bcd.js`.

* JavaScript values are `JsVal`; numbers are modelled by `Int` (the integer
  arguments and HTTP statuses the client handles), objects by insertion-ordered
  key/value lists.
* A promise that has settled is an `Except ApiError α`: `ok` for a resolved
  promise, `error` for a rejected one.  `.then(f)` is `Except.bind`, `.catch(g)`
  is `Except.tryCatch`.
* The transport primitives (`axios`, `getCancellable`, `postCancellable`) and the
  credential provider `getJwt` are external: an operation is split in the
  `Request` it hands to the primitive and the handlers it installs on the
  primitive's `Outcome`; the value of `getJwt()` at call time is an argument.
-/

namespace BetterCallApi

/-! ## JavaScript values -/

/-- JavaScript values crossing the client boundary. -/
inductive JsVal where
  | undefined
  | null
  | bool (b : Bool)
  | num (n : Int)
  | str (s : String)
  | arr (items : List JsVal)
  | obj (fields : List (String × JsVal))

/-- Own properties of an object literal, in insertion order. -/
abbrev Fields := List (String × JsVal)

/-- Truthiness, as tested by `if (v)` and `!v`. -/
def JsVal.truthy : JsVal → Bool
  | .undefined => false
  | .null => false
  | .bool b => b
  | .num n => n != 0
  | .str s => s != ""
  | .arr _ => true
  | .obj _ => true

/-- Own-property lookup `fs[k]`; `none` when the object has no property `k`. -/
def getField (k : String) : Fields → Option JsVal
  | [] => none
  | (k', v) :: rest => if k' = k then some v else getField k rest

/-- Property assignment `fs[k] = v`: an existing property keeps its position,
a new one is appended. -/
def setField (k : String) (v : JsVal) : Fields → Fields
  | [] => [(k, v)]
  | (k', v') :: rest => if k' = k then (k, v) :: rest else (k', v') :: setField k v rest

/-- The call `Object.assign(target, source)`: every own property of `source`
is assigned to `target`, in order. -/
def objectAssign (target source : Fields) : Fields :=
  source.foldl (fun acc p => setField p.1 p.2 acc) target

/-- Own-property lookup on a value; `none` when the value is not an object
or has no such property. -/
def JsVal.field (v : JsVal) (k : String) : Option JsVal :=
  match v with
  | .obj fs => getField k fs
  | _ => none

/-- The call `xs.join(sep)` on an array of strings. -/
def join (sep : String) : List String → String
  | [] => ""
  | [x] => x
  | x :: y :: rest => x ++ sep ++ join sep (y :: rest)

/-! ## Transport outcomes -/

/-- An HTTP response as delivered by the transport: `res.status`, `res.data`
and the raw text `res.request.response`. -/
structure Response where
  status : Int
  data : JsVal
  requestResponse : JsVal

/-- The falsy values a cancellable request may resolve to instead of a response. -/
inductive Falsy where
  | undefined
  | null
  | false
  | zero
  | emptyString
  deriving DecidableEq

/-- The JavaScript value of a falsy result. -/
def Falsy.toVal : Falsy → JsVal
  | .undefined => .undefined
  | .null => .null
  | .false => .bool Bool.false
  | .zero => .num 0
  | .emptyString => .str ""

/-- What a transport promise resolves to: a response, or (for a request issued
through the cancellation tracker) a falsy no-result value. -/
inductive Resolved where
  | noResult (v : Falsy)
  | response (r : Response)

/-- The error object a transport promise rejects with; `err.response` is
`undefined` (here `none`) when no response was received. -/
structure TransportError where
  message : String
  response : Option Response

/-- Values an operation's promise rejects with. -/
inductive ApiError where
  /-- `RequestFailedError`: `code` holds `response.status` (`none` for `undefined`). -/
  | requestFailed (code : Option Int) (response : Resolved)
  /-- `UnauthorizedError` built from the caught error. -/
  | unauthorized (cause : TransportError)
  /-- `TypeError` raised by a property read on `undefined` or `null`. -/
  | typeError
  /-- The transport's own rejection, passed on unchanged. -/
  | transport (err : TransportError)

/-- How the promise returned by the transport primitive settles. -/
inductive Outcome where
  | resolved (res : Resolved)
  | rejected (err : TransportError)

/-- The settled transport promise. -/
def Outcome.toPromise : Outcome → Except ApiError Resolved
  | .resolved res => .ok res
  | .rejected err => .error (.transport err)

/-- The property read `res.status`. -/
def Resolved.status : Resolved → Except ApiError (Option Int)
  | .noResult .undefined => .error .typeError
  | .noResult .null => .error .typeError
  | .noResult _ => .ok none
  | .response r => .ok (some r.status)

/-- The property read `res.data`. -/
def Resolved.data : Resolved → Except ApiError JsVal
  | .noResult .undefined => .error .typeError
  | .noResult .null => .error .typeError
  | .noResult _ => .ok .undefined
  | .response r => .ok r.data

/-- The property read `res.request.response`. -/
def Resolved.requestResponse : Resolved → Except ApiError JsVal
  | .noResult _ => .error .typeError
  | .response r => .ok r.requestResponse

/-- The constructor call `new RequestFailedError(response)`:
`this.code = response.status`. -/
def RequestFailedError (response : Resolved) : Except ApiError ApiError := do
  let code ← response.status
  pure (.requestFailed code response)

/-! ## Response handlers -/

/-- The method `returnResponseData(res)`:
`if (res.status !== 200) throw new RequestFailedError(res); return res.data`. -/
def returnResponseData (res : Resolved) : Except ApiError JsVal := do
  let status ← res.status
  if status ≠ some 200 then
    let e ← RequestFailedError res
    throw e
  res.data

/-- The inlined check
`if (res.status != 200) throw new RequestFailedError(res); return res.data`. -/
def checkStatus (res : Resolved) : Except ApiError JsVal := do
  let status ← res.status
  if status ≠ some 200 then
    let e ← RequestFailedError res
    throw e
  res.data

/-- The handler `if (!res) { return res; }` followed by the status check. -/
def guardedCheck : Resolved → Except ApiError JsVal
  | .noResult v => .ok v.toVal
  | res => checkStatus res

/-- The handler `if (!res) { return null; }` followed by the status check
(`getAccountInfo`, `getAccountTokenBalances`). -/
def guardedNullCheck : Resolved → Except ApiError JsVal
  | .noResult _ => .ok .null
  | res => checkStatus res

/-- The handler of `getAccountMetadata`:
`if (!res || res.status == 204) return null;` followed by the status check. -/
def metadataCheck : Resolved → Except ApiError JsVal
  | .noResult _ => .ok .null
  | res => do
    let status ← res.status
    if status = some 204 then
      return .null
    checkStatus res

/-- The handler of `resolveDomain`:
`if (res.status == 204) return {}` followed by the status check. -/
def domainCheck (res : Resolved) : Except ApiError JsVal := do
  let status ← res.status
  if status = some 204 then
    return .obj []
  checkStatus res

/-- The handler of `getContractEntrypointData`: guard, status check, then
`return res.request.response`. -/
def entrypointDataCheck : Resolved → Except ApiError JsVal
  | .noResult v => .ok v.toVal
  | res => do
    let status ← res.status
    if status ≠ some 200 then
      let e ← RequestFailedError res
      throw e
    res.requestResponse

/-- The handler `(res) => { return res.data }` of the profile operations. -/
def dataOnly (res : Resolved) : Except ApiError JsVal :=
  res.data

/-- The rejection handler of the profile operations:
`if (err.response !== undefined && err.response.status == 401) throw new UnauthorizedError(err); throw err`. -/
def catch401 : ApiError → Except ApiError JsVal
  | .transport err =>
    match err.response with
    | some r => if r.status = 401 then throw (.unauthorized err) else throw (.transport err)
    | none => throw (.transport err)
  | e => throw e

/-! ## The operations -/

/-- The public operations of `BetterCallApi`, in source order. -/
inductive Op where
  | getConfig
  | search
  | getHead
  | getContract
  | getSameContracts
  | getSimilarContracts
  | getContractOperations
  | getAccountInfo
  | getAccountTokenBalances
  | getAccountMetadata
  | getAccountTransfers
  | getContractCode
  | getContractMigrations
  | getContractTokens
  | getContractTokensCount
  | getContractTransfers
  | getContractEntrypoints
  | getContractEntrypointData
  | getContractEntrypointTrace
  | getContractEntrypointSchema
  | getContractStorage
  | getContractStorageRaw
  | getContractStorageRich
  | getContractStorageSchema
  | prepareToFork
  | getContractMempool
  | getContractBigMap
  | getContractBigMapDiffsCount
  | getContractBigMapKeys
  | getContractBigMapActions
  | getContractBigMapHistory
  | getRandomContract
  | getContractsStats
  | getTokensByVersion
  | getDiff
  | getProjects
  | getOPG
  | vote
  | getTasks
  | generateTasks
  | getProfile
  | profileMarkAllRead
  | getProfileSubscriptions
  | addProfileSubscription
  | removeProfileSubscription
  | getProfileEvents
  | getStats
  | getNetworkStats
  | getNetworkStatsSeries
  | getErrorLocation
  | getContractBySlug
  | getDApps
  | getDApp
  | listDomains
  | resolveDomain
  | getTokenVolumeSeries
  | getProfileAccounts
  | getProfileRepos
  | getProfileRefs
  | getProfileCompilations
  | getVerificationList
  | verifyContract
  | getDeploymentList
  | deployContract
  | finalizeDeployContract
  | getMetadataViewsSchema
  | executeMetadataView
  | getTokenHoldersList
  deriving DecidableEq

/-- The primitive an operation sends its request through. -/
inductive Transport where
  | getCancellable
  | postCancellable
  | axios
  deriving DecidableEq

/-- The primitive each operation calls: `getCancellable`, `postCancellable`, or
the axios instance `this.api` directly. -/
def Op.transport : Op → Transport
  | .getConfig => .getCancellable
  | .search => .axios
  | .getHead => .getCancellable
  | .getContract => .getCancellable
  | .getSameContracts => .getCancellable
  | .getSimilarContracts => .getCancellable
  | .getContractOperations => .getCancellable
  | .getAccountInfo => .getCancellable
  | .getAccountTokenBalances => .getCancellable
  | .getAccountMetadata => .getCancellable
  | .getAccountTransfers => .getCancellable
  | .getContractCode => .getCancellable
  | .getContractMigrations => .getCancellable
  | .getContractTokens => .getCancellable
  | .getContractTokensCount => .getCancellable
  | .getContractTransfers => .getCancellable
  | .getContractEntrypoints => .getCancellable
  | .getContractEntrypointData => .postCancellable
  | .getContractEntrypointTrace => .postCancellable
  | .getContractEntrypointSchema => .axios
  | .getContractStorage => .getCancellable
  | .getContractStorageRaw => .axios
  | .getContractStorageRich => .axios
  | .getContractStorageSchema => .axios
  | .prepareToFork => .postCancellable
  | .getContractMempool => .getCancellable
  | .getContractBigMap => .getCancellable
  | .getContractBigMapDiffsCount => .getCancellable
  | .getContractBigMapKeys => .getCancellable
  | .getContractBigMapActions => .getCancellable
  | .getContractBigMapHistory => .getCancellable
  | .getRandomContract => .getCancellable
  | .getContractsStats => .getCancellable
  | .getTokensByVersion => .getCancellable
  | .getDiff => .axios
  | .getProjects => .getCancellable
  | .getOPG => .getCancellable
  | .vote => .axios
  | .getTasks => .axios
  | .generateTasks => .axios
  | .getProfile => .axios
  | .profileMarkAllRead => .axios
  | .getProfileSubscriptions => .axios
  | .addProfileSubscription => .axios
  | .removeProfileSubscription => .axios
  | .getProfileEvents => .axios
  | .getStats => .getCancellable
  | .getNetworkStats => .getCancellable
  | .getNetworkStatsSeries => .getCancellable
  | .getErrorLocation => .getCancellable
  | .getContractBySlug => .getCancellable
  | .getDApps => .getCancellable
  | .getDApp => .getCancellable
  | .listDomains => .getCancellable
  | .resolveDomain => .getCancellable
  | .getTokenVolumeSeries => .getCancellable
  | .getProfileAccounts => .getCancellable
  | .getProfileRepos => .getCancellable
  | .getProfileRefs => .getCancellable
  | .getProfileCompilations => .getCancellable
  | .getVerificationList => .getCancellable
  | .verifyContract => .axios
  | .getDeploymentList => .getCancellable
  | .deployContract => .axios
  | .finalizeDeployContract => .axios
  | .getMetadataViewsSchema => .axios
  | .executeMetadataView => .axios
  | .getTokenHoldersList => .axios

/-- The handler each operation passes to `.then`. -/
def Op.onResolved : Op → Resolved → Except ApiError JsVal
  | .getConfig => guardedCheck
  | .search => checkStatus
  | .getHead => guardedCheck
  | .getContract => guardedCheck
  | .getSameContracts => guardedCheck
  | .getSimilarContracts => guardedCheck
  | .getContractOperations => guardedCheck
  | .getAccountInfo => guardedNullCheck
  | .getAccountTokenBalances => guardedNullCheck
  | .getAccountMetadata => metadataCheck
  | .getAccountTransfers => guardedCheck
  | .getContractCode => checkStatus
  | .getContractMigrations => guardedCheck
  | .getContractTokens => guardedCheck
  | .getContractTokensCount => guardedCheck
  | .getContractTransfers => guardedCheck
  | .getContractEntrypoints => guardedCheck
  | .getContractEntrypointData => entrypointDataCheck
  | .getContractEntrypointTrace => guardedCheck
  | .getContractEntrypointSchema => checkStatus
  | .getContractStorage => guardedCheck
  | .getContractStorageRaw => checkStatus
  | .getContractStorageRich => checkStatus
  | .getContractStorageSchema => checkStatus
  | .prepareToFork => checkStatus
  | .getContractMempool => guardedCheck
  | .getContractBigMap => guardedCheck
  | .getContractBigMapDiffsCount => guardedCheck
  | .getContractBigMapKeys => guardedCheck
  | .getContractBigMapActions => guardedCheck
  | .getContractBigMapHistory => checkStatus
  | .getRandomContract => checkStatus
  | .getContractsStats => guardedCheck
  | .getTokensByVersion => checkStatus
  | .getDiff => checkStatus
  | .getProjects => checkStatus
  | .getOPG => checkStatus
  | .vote => dataOnly
  | .getTasks => dataOnly
  | .generateTasks => dataOnly
  | .getProfile => dataOnly
  | .profileMarkAllRead => dataOnly
  | .getProfileSubscriptions => dataOnly
  | .addProfileSubscription => dataOnly
  | .removeProfileSubscription => dataOnly
  | .getProfileEvents => dataOnly
  | .getStats => guardedCheck
  | .getNetworkStats => guardedCheck
  | .getNetworkStatsSeries => guardedCheck
  | .getErrorLocation => guardedCheck
  | .getContractBySlug => checkStatus
  | .getDApps => checkStatus
  | .getDApp => checkStatus
  | .listDomains => checkStatus
  | .resolveDomain => domainCheck
  | .getTokenVolumeSeries => guardedCheck
  | .getProfileAccounts => checkStatus
  | .getProfileRepos => checkStatus
  | .getProfileRefs => checkStatus
  | .getProfileCompilations => checkStatus
  | .getVerificationList => checkStatus
  | .verifyContract => checkStatus
  | .getDeploymentList => checkStatus
  | .deployContract => checkStatus
  | .finalizeDeployContract => checkStatus
  | .getMetadataViewsSchema => checkStatus
  | .executeMetadataView => checkStatus
  | .getTokenHoldersList => returnResponseData

/-- Whether the operation ends its chain with the `.catch` handler `catch401`. -/
def Op.hasCatch : Op → Bool
  | .vote => true
  | .getTasks => true
  | .generateTasks => true
  | .getProfile => true
  | .profileMarkAllRead => true
  | .getProfileSubscriptions => true
  | .addProfileSubscription => true
  | .removeProfileSubscription => true
  | .getProfileEvents => true
  | _ => false

/-- The promise an operation returns, given how its transport promise settles:
`transport.then(onResolved)` and, for the profile operations, `.catch(catch401)`. -/
def Op.respond (op : Op) (out : Outcome) : Except ApiError JsVal :=
  let chained := out.toPromise.bind op.onResolved
  if op.hasCatch then chained.tryCatch catch401 else chained


/-- Whether the operation's `.then` handler inspects `res.status`: every
operation but the nine profile operations, whose handler is `dataOnly`. -/
def Op.statusChecked : Op → Bool
  | .vote => false
  | .getTasks => false
  | .generateTasks => false
  | .getProfile => false
  | .profileMarkAllRead => false
  | .getProfileSubscriptions => false
  | .addProfileSubscription => false
  | .removeProfileSubscription => false
  | .getProfileEvents => false
  | _ => true

/-- Whether the operation sends an `Authorization` header built from `getJwt()`. -/
def Op.credentialed : Op → Bool
  | .getContract => true
  | .vote => true
  | .getTasks => true
  | .generateTasks => true
  | .getProfile => true
  | .profileMarkAllRead => true
  | .getProfileSubscriptions => true
  | .addProfileSubscription => true
  | .removeProfileSubscription => true
  | .getProfileEvents => true
  | .getProfileAccounts => true
  | .getProfileRepos => true
  | .getProfileRefs => true
  | .getProfileCompilations => true
  | .getVerificationList => true
  | .verifyContract => true
  | .getDeploymentList => true
  | .deployContract => true
  | .finalizeDeployContract => true
  | _ => false

/-! ## Requests -/

/-- The module constant `maxSize`. -/
def maxSize : Int := 10

/-- A call of a transport primitive, with the arguments the operation passes. -/
inductive Request where
  /-- The call `getCancellable(this.api, url, config)`. -/
  | getCancellable (url : String) (config : JsVal)
  /-- The call `postCancellable(this.api, url, data)`. -/
  | postCancellable (url : String) (data : JsVal)
  /-- The call `this.api.get(url)` or `this.api.get(url, config)`. -/
  | get (url : String) (config : Option JsVal)
  /-- The call `this.api.post(url, data)` or `this.api.post(url, data, config)`. -/
  | post (url : String) (data : JsVal) (config : Option JsVal)
  /-- The call `this.api.delete(url, config)`. -/
  | delete (url : String) (config : Option JsVal)
  /-- The call `this.api.patch(url, data, config)`. -/
  | patch (url : String) (data : JsVal) (config : Option JsVal)

/-- The URL of a request. -/
def Request.url : Request → String
  | .getCancellable url _ => url
  | .postCancellable url _ => url
  | .get url _ => url
  | .post url _ _ => url
  | .delete url _ => url
  | .patch url _ _ => url

/-- The request configuration object (`params`, `headers`, ...), when one is passed. -/
def Request.config : Request → Option JsVal
  | .getCancellable _ config => some config
  | .postCancellable _ _ => none
  | .get _ config => config
  | .post _ _ config => config
  | .delete _ config => config
  | .patch _ _ config => config

/-- The primitive a request is issued through. -/
def Request.transport : Request → Transport
  | .getCancellable _ _ => .getCancellable
  | .postCancellable _ _ => .postCancellable
  | _ => .axios

/-- The entry `config.params[k]` of the outgoing request, if present. -/
def Request.param (req : Request) (k : String) : Option JsVal :=
  match req.config with
  | some config =>
    match config.field "params" with
    | some params => params.field k
    | none => none
  | none => none

/-- The entry `config.headers[k]` of the outgoing request, if present. -/
def Request.header (req : Request) (k : String) : Option JsVal :=
  match req.config with
  | some config =>
    match config.field "headers" with
    | some headers => headers.field k
    | none => none
  | none => none

/-- Template interpolation of an integer number. -/
def numToString (n : Int) : String :=
  toString n

/-- The characters of a URL after its first question mark. -/
def urlQuery (url : String) : List Char :=
  (url.data.dropWhile (fun c => c != '?')).drop 1

/-- One `key=value` segment of a query string, split at its first equals sign. -/
def segmentField (seg : List Char) : String × String :=
  (String.mk (seg.takeWhile (fun c => c != '=')),
   String.mk ((seg.dropWhile (fun c => c != '=')).drop 1))

/-- The fields of the query string of a URL: the non-empty segments between
ampersands, in order. -/
def queryFields (url : String) : List (String × String) :=
  (((urlQuery url).splitOn '&').filter (fun seg => !seg.isEmpty)).map segmentField

/-- The value of field `k` in the query string of a URL, if present. -/
def queryParam (url : String) (k : String) : Option String :=
  (queryFields url).lookup k

/-- An operation call: the operation (which selects the handlers of `Op.respond`)
and the request it issues. -/
structure Call where
  op : Op
  request : Request

/-- The promise the call returns when the transport settles requests as `send` says. -/
def Call.run (call : Call) (send : Request → Outcome) : Except ApiError JsVal :=
  call.op.respond (send call.request)

/-- The config `{ headers: { 'Authorization': getJwt() } }`. -/
def authConfig (jwt : JsVal) : Fields :=
  [("headers", .obj [("Authorization", jwt)])]

/-! ## Operations: request building (source order)

`jwt` is the value of `getJwt()` when the operation is called. -/

/-- Operation `search(text, indices = [], offset = 0, networks = [], languages = [], time = {}, group = 0)`. -/
def search (text : String) (indices : List String) (offset : Int)
    (networks languages : List String) (time : Fields) (group : Int) : Call :=
  let params : Fields := [("q", .str text)]
  let params := if offset > 0 then setField "o" (.num offset) params else params
  let params := if indices.length > 0 then setField "i" (.str (join "," indices)) params else params
  let params := if networks.length > 0 then setField "n" (.str (join "," networks)) params else params
  let params := if languages.length > 0 then setField "l" (.str (join "," languages)) params else params
  let params := if group ≥ 0 then setField "g" (.num 1) params else params
  let params := objectAssign params time
  ⟨.search, .get "/search" (some (.obj [("params", .obj params)]))⟩

/-- Operation `getContract(network, address)`. -/
def getContract (jwt : JsVal) (network address : String) : Call :=
  let params : Fields := []
  let token := jwt
  let params := if token.truthy then setField "headers" (.obj [("Authorization", token)]) params else params
  ⟨.getContract, .getCancellable ("/contract/" ++ network ++ "/" ++ address) (.obj params)⟩

/-- Operation `getSameContracts(network, address, offset = 0)`. -/
def getSameContracts (network address : String) (offset : Int) : Call :=
  let params : Fields := []
  let params := if offset > 0 then setField "offset" (.num offset) params else params
  ⟨.getSameContracts,
    .getCancellable ("/contract/" ++ network ++ "/" ++ address ++ "/same") (.obj [("params", .obj params)])⟩

/-- Operation `getSimilarContracts(network, address, offset = 0)`. -/
def getSimilarContracts (network address : String) (offset : Int) : Call :=
  let params : Fields := []
  let params := if offset > 0 then setField "offset" (.num offset) params else params
  ⟨.getSimilarContracts,
    .getCancellable ("/contract/" ++ network ++ "/" ++ address ++ "/similar") (.obj [("params", .obj params)])⟩

/-- Operation `getContractOperations(network, address, last_id = "", from = 0, to = 0,
statuses = [], entrypoints = [], with_storage_diff = true)`. -/
def getContractOperations (network address : String) (last_id : String) (from_ to_ : Int)
    (statuses entrypoints : List String) (with_storage_diff : Bool) : Call :=
  let params : Fields := []
  let params := if last_id ≠ "" then setField "last_id" (.str last_id) params else params
  let params := if from_ ≠ 0 then setField "from" (.num from_) params else params
  let params := if to_ ≠ 0 then setField "to" (.num to_) params else params
  let params := if statuses.length > 0 ∧ statuses.length < 4
    then setField "status" (.str (join "," statuses)) params else params
  let params := if entrypoints.length > 0
    then setField "entrypoints" (.str (join "," entrypoints)) params else params
  let params := setField "with_storage_diff" (.bool with_storage_diff) params
  ⟨.getContractOperations,
    .getCancellable ("/contract/" ++ network ++ "/" ++ address ++ "/operations") (.obj [("params", .obj params)])⟩

/-- Operation `getAccountTokenBalances(network, address, offset=0, size=maxSize)`. -/
def getAccountTokenBalances (network address : String) (offset size : Int) : Call :=
  ⟨.getAccountTokenBalances,
    .getCancellable ("/account/" ++ network ++ "/" ++ address ++ "/token_balances")
      (.obj [("params", .obj [("offset", .num offset), ("size", .num size)])])⟩

/-- Operation `getAccountMetadata(network, address)`. -/
def getAccountMetadata (network address : String) : Call :=
  ⟨.getAccountMetadata,
    .getCancellable ("/account/" ++ network ++ "/" ++ address ++ "/metadata") (.obj [])⟩

/-- Operation `getAccountTransfers(network, address, token_id = -1, contracts = [],
size = maxSize, last_id = '')`. -/
def getAccountTransfers (network address : String) (token_id : Int) (contracts : List String)
    (size : Int) (last_id : String) : Call :=
  let params : Fields := []
  let params := if token_id > -1 then setField "token_id" (.num token_id) params else params
  let params := if size > 0 then setField "size" (.num size) params else params
  let params := if last_id ≠ "" then setField "last_id" (.str last_id) params else params
  let params := if contracts.length > 0
    then setField "contracts" (.str (join "," contracts)) params else params
  ⟨.getAccountTransfers,
    .getCancellable ("/tokens/" ++ network ++ "/transfers/" ++ address) (.obj [("params", .obj params)])⟩

/-- Operation `getContractTokens(network, address, offset=0, size=maxSize)`. -/
def getContractTokens (network address : String) (offset size : Int) : Call :=
  ⟨.getContractTokens,
    .getCancellable ("/contract/" ++ network ++ "/" ++ address ++ "/tokens")
      (.obj [("params", .obj [("offset", .num offset), ("size", .num size)])])⟩

/-- Operation `getContractTransfers(network, address, token_id = -1, size = maxSize, offset = 0)`. -/
def getContractTransfers (network address : String) (token_id size offset : Int) : Call :=
  let params : Fields := []
  let params := if token_id > -1 then setField "token_id" (.num token_id) params else params
  let params := if size > 0 then setField "size" (.num size) params else params
  let params := if offset > 0 then setField "offset" (.num offset) params else params
  ⟨.getContractTransfers,
    .getCancellable ("/contract/" ++ network ++ "/" ++ address ++ "/transfers") (.obj [("params", .obj params)])⟩

/-- Operation `getContractBigMapKeys(network, ptr, q = '', offset = 0)`. -/
def getContractBigMapKeys (network ptr : String) (q : String) (offset : Int) : Call :=
  ⟨.getContractBigMapKeys,
    .getCancellable ("/bigmap/" ++ network ++ "/" ++ ptr ++ "/keys?q=" ++ q ++ "&offset=" ++ numToString offset)
      (.obj [])⟩

/-- Operation `getContractBigMapHistory(network, ptr, keyhash, offset = 0)`. -/
def getContractBigMapHistory (network ptr keyhash : String) (offset : Int) : Call :=
  ⟨.getContractBigMapHistory,
    .getCancellable ("/bigmap/" ++ network ++ "/" ++ ptr ++ "/keys/" ++ keyhash ++ "?offset=" ++ numToString offset)
      (.obj [])⟩

/-- Operation `getContractsStats(network, addresses, period)`. -/
def getContractsStats (network : String) (addresses : List String) (period : String) : Call :=
  ⟨.getContractsStats,
    .getCancellable ("/stats/" ++ network ++ "/contracts?period=" ++ period ++ "&contracts=" ++ join "," addresses)
      (.obj [])⟩

/-- Operation `getTokensByVersion(network, version, offset = 0, size = 0)`. -/
def getTokensByVersion (network version : String) (offset size : Int) : Call :=
  let params : Fields := []
  let params := if size > 0 then setField "size" (.num size) params else params
  let params := if offset > 0 then setField "offset" (.num offset) params else params
  ⟨.getTokensByVersion,
    .getCancellable ("/tokens/" ++ network ++ "/version/" ++ version) (.obj [("params", .obj params)])⟩

/-- Operation `vote(sn, sa, dn, da, vote)`. -/
def vote (jwt : JsVal) (sn sa dn da vote : JsVal) : Call :=
  ⟨.vote, .post "/profile/vote"
    (.obj [("src", sa), ("src_network", sn), ("dest", da), ("dest_network", dn), ("vote", vote)])
    (some (.obj (authConfig jwt)))⟩

/-- Operation `getTasks()`. -/
def getTasks (jwt : JsVal) : Call :=
  ⟨.getTasks, .get "/profile/vote/tasks" (some (.obj (authConfig jwt)))⟩

/-- Operation `generateTasks()`. -/
def generateTasks (jwt : JsVal) : Call :=
  ⟨.generateTasks, .get "/profile/vote/generate" (some (.obj (authConfig jwt)))⟩

/-- Operation `getProfile()`. -/
def getProfile (jwt : JsVal) : Call :=
  ⟨.getProfile, .get "/profile" (some (.obj (authConfig jwt)))⟩

/-- Operation `profileMarkAllRead(timestamp)`. -/
def profileMarkAllRead (jwt : JsVal) (timestamp : JsVal) : Call :=
  ⟨.profileMarkAllRead,
    .post "/profile/mark_all_read" (.obj [("timestamp", timestamp)]) (some (.obj (authConfig jwt)))⟩

/-- Operation `getProfileSubscriptions()`. -/
def getProfileSubscriptions (jwt : JsVal) : Call :=
  ⟨.getProfileSubscriptions, .get "/profile/subscriptions" (some (.obj (authConfig jwt)))⟩

/-- Operation `addProfileSubscription(subscription)`. -/
def addProfileSubscription (jwt : JsVal) (subscription : JsVal) : Call :=
  ⟨.addProfileSubscription, .post "/profile/subscriptions" subscription (some (.obj (authConfig jwt)))⟩

/-- Operation `removeProfileSubscription(network, address)`. -/
def removeProfileSubscription (jwt : JsVal) (network address : JsVal) : Call :=
  ⟨.removeProfileSubscription, .delete "/profile/subscriptions"
    (some (.obj [("headers", .obj [("Authorization", jwt)]),
                 ("data", .obj [("network", network), ("address", address)])]))⟩

/-- Operation `getProfileEvents(offset = 0)`. -/
def getProfileEvents (jwt : JsVal) (offset : Int) : Call :=
  ⟨.getProfileEvents, .get "/profile/subscriptions/events"
    (some (.obj [("headers", .obj [("Authorization", jwt)]),
                 ("params", .obj [("offset", .num offset), ("size", .num maxSize)])]))⟩

/-- Operation `getNetworkStatsSeries(network, index, period, addresses = [])`. -/
def getNetworkStatsSeries (network index period : String) (addresses : List String) : Call :=
  let params : List String := []
  let params := if addresses.length ≠ 0 then params ++ ["address=" ++ join "," addresses] else params
  let params := if (JsVal.str period).truthy then params ++ ["period=" ++ period] else params
  let params := if (JsVal.str index).truthy then params ++ ["name=" ++ index] else params
  ⟨.getNetworkStatsSeries,
    .getCancellable ("/stats/" ++ network ++ "/series?" ++ join "&" params) (.obj [])⟩

/-- Operation `listDomains(network, offset = 0, size = maxSize)`. -/
def listDomains (network : String) (offset size : Int) : Call :=
  let params : Fields := []
  let params := if size > 0 then setField "size" (.num size) params else params
  let params := if offset > 0 then setField "offset" (.num offset) params else params
  ⟨.listDomains, .getCancellable ("/domains/" ++ network) (.obj [("params", .obj params)])⟩

/-- Operation `resolveDomain(network, address)`. -/
def resolveDomain (network address : String) : Call :=
  ⟨.resolveDomain,
    .getCancellable ("/domains/" ++ network ++ "/resolve?address=" ++ address) (.obj [])⟩

/-- Operation `getProfileAccounts()`. -/
def getProfileAccounts (jwt : JsVal) : Call :=
  ⟨.getProfileAccounts, .getCancellable "/profile/accounts" (.obj (authConfig jwt))⟩

/-- Operation `getProfileRepos(login)`. -/
def getProfileRepos (jwt : JsVal) (login : String) : Call :=
  ⟨.getProfileRepos, .getCancellable ("/profile/repos?login=" ++ login) (.obj (authConfig jwt))⟩

/-- Operation `getProfileRefs(owner, repo)`. -/
def getProfileRefs (jwt : JsVal) (owner repo : String) : Call :=
  ⟨.getProfileRefs,
    .getCancellable ("/profile/refs?owner=" ++ owner ++ "&repo=" ++ repo) (.obj (authConfig jwt))⟩

/-- Operation `getProfileCompilations(limit = 0, offset = 0)`. -/
def getProfileCompilations (jwt : JsVal) (limit offset : Int) : Call :=
  let params : List String := []
  let params := if limit > 0 then params ++ ["limit=" ++ numToString limit] else params
  let params := if offset > 0 then params ++ ["offset=" ++ numToString offset] else params
  ⟨.getProfileCompilations,
    .getCancellable ("/profile/compilations?" ++ join "&" params) (.obj (authConfig jwt))⟩

/-- Operation `getVerificationList()`. -/
def getVerificationList (jwt : JsVal) : Call :=
  ⟨.getVerificationList,
    .getCancellable "/profile/compilations/verification" (.obj (authConfig jwt))⟩

/-- Operation `verifyContract(network, address, account, repo, ref)`. -/
def verifyContract (jwt : JsVal) (network address account repo ref : JsVal) : Call :=
  ⟨.verifyContract, .post "/profile/compilations/verification"
    (.obj [("network", network), ("address", address), ("account", account), ("repo", repo), ("ref", ref)])
    (some (.obj (authConfig jwt)))⟩

/-- Operation `getDeploymentList(limit, offset)`. -/
def getDeploymentList (jwt : JsVal) (limit offset : Int) : Call :=
  let params : List String := []
  let params := if limit > 0 then params ++ ["limit=" ++ numToString limit] else params
  let params := if offset > 0 then params ++ ["offset=" ++ numToString offset] else params
  ⟨.getDeploymentList,
    .getCancellable ("/profile/compilations/deployment?" ++ join "&" params) (.obj (authConfig jwt))⟩

/-- Operation `deployContract(network, address, repo, ref)`. -/
def deployContract (jwt : JsVal) (network address repo ref : JsVal) : Call :=
  ⟨.deployContract, .post "/profile/compilations/deployment"
    (.obj [("network", network), ("address", address), ("repo", repo), ("ref", ref)])
    (some (.obj (authConfig jwt)))⟩

/-- Operation `finalizeDeployContract(hash, taskId, resultId)`. -/
def finalizeDeployContract (jwt : JsVal) (hash taskId resultId : JsVal) : Call :=
  ⟨.finalizeDeployContract, .patch "/profile/compilations/deployment"
    (.obj [("operation_hash", hash), ("task_id", taskId), ("result_id", resultId)])
    (some (.obj (authConfig jwt)))⟩

/-! ## Operations: further request builders -/

/-- The request body (the `data` argument of a post or patch call), when there is one. -/
def Request.data : Request → Option JsVal
  | .postCancellable _ data => some data
  | .post _ data _ => some data
  | .patch _ data _ => some data
  | _ => none

/-- The entry `data[k]` of the request body, if present. -/
def Request.bodyField (req : Request) (k : String) : Option JsVal :=
  match req.data with
  | some data => data.field k
  | none => none

/-- Operation `getHead()`. -/
def getHead : Call :=
  ⟨.getHead, .getCancellable "/head" (.obj [])⟩

/-- Operation `getContractCode(network, address, protocol = "", level = 0)`. -/
def getContractCode (network address : String) (protocol : String) (level : Int) : Call :=
  let params : Fields := []
  let params := if protocol ≠ "" then setField "protocol" (.str protocol) params else params
  let params := if level > 0 then setField "level" (.num level) params else params
  ⟨.getContractCode,
    .getCancellable ("/contract/" ++ network ++ "/" ++ address ++ "/code") (.obj [("params", .obj params)])⟩

/-- Operation `getContractEntrypointData(network, address, name, data, format = '')`. -/
def getContractEntrypointData (network address : String) (name data : JsVal) (format : String) :
    Call :=
  ⟨.getContractEntrypointData,
    .postCancellable ("/contract/" ++ network ++ "/" ++ address ++ "/entrypoints/data")
      (.obj [("name", name), ("data", data), ("format", .str format)])⟩

/-- Operation `getContractEntrypointTrace(network, address, name, data, source = null,
amount = null)`.  The built-in `parseInt` is a parameter. -/
def getContractEntrypointTrace (parseInt : JsVal → JsVal) (network address : String)
    (name data source amount : JsVal) : Call :=
  let body : Fields := [("name", name), ("data", data)]
  let body := if source.truthy then setField "source" source body else body
  let body := if amount.truthy then setField "amount" (parseInt amount) body else body
  let method := if source.truthy then "run_operation" else "trace"
  ⟨.getContractEntrypointTrace,
    .postCancellable ("/contract/" ++ network ++ "/" ++ address ++ "/entrypoints/" ++ method)
      (.obj body)⟩

/-- Operation `getTokenVolumeSeries(network, period, contract, token_id, slug = '')`. -/
def getTokenVolumeSeries (network period contract : String) (token_id : Int) (slug : String) :
    Call :=
  let params : List String := []
  let params := params ++ ["contract=" ++ contract]
  let params := params ++ ["period=" ++ period]
  let params := params ++ ["token_id=" ++ numToString token_id]
  let params := if slug ≠ "" then params ++ ["slug=" ++ slug] else params
  ⟨.getTokenVolumeSeries,
    .getCancellable ("/tokens/" ++ network ++ "/series?" ++ join "&" params) (.obj [])⟩

/-! ## Relative-time formatting (`src/setups/dayjs.js`) -/

/-- A JavaScript number that is an integer, or `NaN` (`none`). -/
abbrev JsNum := Option Int

/-- The remainder operator `a % b` on integers: `NaN` when `b` is zero or an
operand is `NaN`, otherwise the remainder with the sign of `a`. -/
def jsMod (a b : JsNum) : JsNum :=
  match a, b with
  | some x, some y => if y = 0 then none else some (x.tmod y)
  | _, _ => none

/-- The comparison `a < b`, false when an operand is `NaN`. -/
def jsLt (a b : JsNum) : Bool :=
  match a, b with
  | some x, some y => decide (x < y)
  | _, _ => false

/-- The values of `dayjs().diff(dayjs(timestamp), unit)` for the units `"hour"`,
`"minute"` and `"day"` at the moment the formatter runs. -/
structure Elapsed where
  hour : Int
  minute : Int
  day : Int

/-- The constant `hoursDiff` of `showDaysAgo`:
`dayjs().diff(dayjs(timestamp), "hour") % (24 * (d - 1))`. -/
def hoursDiff (elapsed : Elapsed) (d : Int) : JsNum :=
  jsMod (some elapsed.hour) (some (24 * (d - 1)))

/-- The formatter `showDaysAgo(d, timestamp)`, registered for the units `dd`, `M`,
`MM`, `y` and `yy`.  The helper `plural` of `@/utils/tz` is a parameter. -/
def showDaysAgo (plural : JsNum → String → String) (elapsed : Elapsed) (d : Int)
    (timestamp : JsVal) : String :=
  if timestamp.truthy then
    let hoursDiff := hoursDiff elapsed d
    if jsLt (jsMod hoursDiff (some 24)) (some 1) then
      let minutesDiff := jsMod (some elapsed.minute) (some 60)
      plural (some d) "day" ++ " " ++ plural minutesDiff "min" ++ " ago"
    else
      let daysDiff := elapsed.day
      plural (some daysDiff) "day" ++ " " ++ plural (jsMod hoursDiff (some 24)) "hr" ++ " ago"
  else
    plural (some d) "hour"

/-! ## Calls in flight

Calls are numbered in the order they are made.  A call stays in flight from the
moment its request is handed to the transport until the transport promise settles. -/

/-- The cancellation tracker of `@/utils/cancellation.js`, taken as a parameter:
its state, what `getCancellable` or `postCancellable` does to the state when call
number `id` registers its request together with the earlier calls this cancels,
and the falsy value a cancelled request resolves to. -/
structure Tracker (σ : Type) where
  register : σ → Nat → Request → σ × List Nat
  cancelled : Falsy

/-- A call whose transport promise has not settled yet. -/
structure Pending where
  id : Nat
  call : Call

/-- The client between two events: the number of calls made, the tracker state,
the calls in flight and the promises that have settled, in order of settlement. -/
structure World (σ : Type) where
  issued : Nat
  tracker : σ
  inflight : List Pending
  settled : List (Nat × Except ApiError JsVal)

/-- The client before any call. -/
def World.start {σ : Type} (tracker : σ) : World σ :=
  ⟨0, tracker, [], []⟩

/-- An operation is called.  A request sent with `this.api` directly just joins
the calls in flight.  A request sent through the tracker is registered, and the
tracked calls in flight the tracker cancels settle at once, by their own `.then`
handler applied to the no-result value. -/
def World.issue {σ : Type} (T : Tracker σ) (w : World σ) (call : Call) : World σ :=
  match call.request.transport with
  | .axios =>
    { w with issued := w.issued + 1, inflight := w.inflight ++ [⟨w.issued, call⟩] }
  | _ =>
    let reg := T.register w.tracker w.issued call.request
    let hit := fun (p : Pending) =>
      decide (p.call.request.transport ≠ .axios) && reg.2.contains p.id
    { issued := w.issued + 1
      tracker := reg.1
      inflight := w.inflight.filter (fun p => !hit p) ++ [⟨w.issued, call⟩]
      settled := w.settled ++ (w.inflight.filter hit).map
        (fun p => (p.id, p.call.op.respond (.resolved (.noResult T.cancelled)))) }

/-- The transport promise of call `id` settles as `out`: the call's promise settles
by its handlers.  Nothing happens when the call is not in flight any more. -/
def World.deliver {σ : Type} (w : World σ) (id : Nat) (out : Outcome) : World σ :=
  match w.inflight.find? (fun p => p.id == id) with
  | some p =>
    { w with
      inflight := w.inflight.filter (fun q => q.id != id)
      settled := w.settled ++ [(id, p.call.op.respond out)] }
  | none => w

/-- Modelled from the spec: the in-flight request slot of the cancellation tracker
(sections 3 and 4.2), in the case where every registered request falls under one
cancellation key.  The state is the current holder; registering a request cancels
the holder and makes the new request the holder.  A cancelled request resolves to
`undefined`. -/
def singleSlotTracker : Tracker (Option Nat) where
  register := fun holder id _ => (some id, holder.toList)
  cancelled := .undefined

/-! # Theorems -/

/-! ## Response handlers on a response -/

theorem checkStatus_response (r : Response) :
    checkStatus (.response r) =
      if r.status = 200 then .ok r.data
      else .error (.requestFailed (some r.status) (.response r)) := by
  by_cases h : r.status = 200 <;>
    simp [checkStatus, Resolved.status, Resolved.data, RequestFailedError, bind, Except.bind, pure,
      Except.pure, throw, throwThe, MonadExceptOf.throw, h]

theorem returnResponseData_eq (res : Resolved) : returnResponseData res = checkStatus res := rfl

theorem guardedCheck_response (r : Response) : guardedCheck (.response r) = checkStatus (.response r) := rfl
theorem guardedNullCheck_response (r : Response) : guardedNullCheck (.response r) = checkStatus (.response r) := rfl

theorem metadataCheck_response (r : Response) :
    metadataCheck (.response r) =
      if r.status = 204 then .ok .null else checkStatus (.response r) := by
  by_cases h : r.status = 204 <;>
    simp [metadataCheck, Resolved.status, bind, Except.bind, pure, Except.pure, h]

theorem domainCheck_response (r : Response) :
    domainCheck (.response r) =
      if r.status = 204 then .ok (.obj []) else checkStatus (.response r) := by
  by_cases h : r.status = 204 <;>
    simp [domainCheck, Resolved.status, bind, Except.bind, pure, Except.pure, h]

theorem entrypointDataCheck_response (r : Response) :
    entrypointDataCheck (.response r) =
      if r.status = 200 then .ok r.requestResponse
      else .error (.requestFailed (some r.status) (.response r)) := by
  by_cases h : r.status = 200 <;>
    simp [entrypointDataCheck, Resolved.status, Resolved.requestResponse, RequestFailedError, bind,
      Except.bind, pure, Except.pure, throw, throwThe, MonadExceptOf.throw, h]

theorem dataOnly_response (r : Response) : dataOnly (.response r) = .ok r.data := rfl

theorem respond_statusChecked (op : Op) (r : Response) (hop : op.statusChecked = true)
    (h : r.status ≠ 200) (h' : r.status ≠ 204) :
    op.respond (.resolved (.response r)) = .error (.requestFailed (some r.status) (.response r)) := by
  cases op <;>
    simp_all [Op.respond, Op.onResolved, Op.hasCatch, Op.statusChecked, Outcome.toPromise, Except.bind,
      checkStatus_response, returnResponseData_eq, guardedCheck_response, guardedNullCheck_response,
      metadataCheck_response, domainCheck_response, entrypointDataCheck_response]

/-! ## C1 -/

/-- C1: for a response whose status lies outside 200-299, `returnResponseData`
and every status-checked operation reject with a `RequestFailedError` whose `code`
is that status; no value is returned. -/
theorem c1_requestFailed_outside_2xx (r : Response) (h : r.status < 200 ∨ 299 < r.status) :
    returnResponseData (.response r) = .error (.requestFailed (some r.status) (.response r)) ∧
    ∀ op : Op, op.statusChecked = true →
      op.respond (.resolved (.response r)) =
        .error (.requestFailed (some r.status) (.response r)) := by
  have h200 : r.status ≠ 200 := by omega
  have h204 : r.status ≠ 204 := by omega
  refine ⟨?_, fun op hop => respond_statusChecked op r hop h200 h204⟩
  rw [returnResponseData_eq, checkStatus_response, if_neg h200]

/-- C1 at status 404, for `returnResponseData` and for `getHead`. -/
theorem c1_requestFailed_outside_2xx_witness :
    ((404 : Int) < 200 ∨ 299 < (404 : Int)) ∧
    returnResponseData (.response ⟨404, .str "not found", .null⟩) =
      .error (.requestFailed (some 404) (.response ⟨404, .str "not found", .null⟩)) ∧
    Op.getHead.respond (.resolved (.response ⟨404, .str "not found", .null⟩)) =
      .error (.requestFailed (some 404) (.response ⟨404, .str "not found", .null⟩)) :=
  ⟨by decide,
   (c1_requestFailed_outside_2xx ⟨404, .str "not found", .null⟩ (by decide)).1,
   (c1_requestFailed_outside_2xx ⟨404, .str "not found", .null⟩ (by decide)).2 .getHead rfl⟩

/-! ## C2 -/

/-- C2, as stated, fails: on a status-200 response `getContractEntrypointData`
resolves to the raw text `res.request.response`, not to `res.data`. -/
theorem c2_counterexample :
    Op.getContractEntrypointData.respond
        (.resolved (.response ⟨200, .obj [("ok", .bool true)], .str "raw"⟩)) = .ok (.str "raw") ∧
    Op.getContractEntrypointData.respond
        (.resolved (.response ⟨200, .obj [("ok", .bool true)], .str "raw"⟩)) ≠
      .ok (.obj [("ok", .bool true)]) := by
  refine ⟨rfl, ?_⟩
  intro h
  cases h

/-- C2 (amended): on a status-200 response every operation other than
`getContractEntrypointData` resolves to `res.data`, and so does
`returnResponseData`; `getContractEntrypointData` resolves to
`res.request.response`. -/
theorem c2_status200_result (op : Op) (r : Response) (h : r.status = 200) :
    returnResponseData (.response r) = .ok r.data ∧
    op.respond (.resolved (.response r)) =
      .ok (if op = .getContractEntrypointData then r.requestResponse else r.data) := by
  refine ⟨by rw [returnResponseData_eq, checkStatus_response, if_pos h], ?_⟩
  cases op <;>
    simp [Op.respond, Op.onResolved, Op.hasCatch, Outcome.toPromise, Except.bind, Except.tryCatch,
      checkStatus_response, returnResponseData_eq, guardedCheck_response, guardedNullCheck_response,
      metadataCheck_response, domainCheck_response, entrypointDataCheck_response,
      dataOnly_response, h]

/-- C2 (amended) at a concrete response, for `getConfig`. -/
theorem c2_status200_result_witness :
    (200 : Int) = 200 ∧
    Op.getConfig.respond (.resolved (.response ⟨200, .str "body", .str "raw"⟩)) =
      .ok (.str "body") :=
  ⟨rfl, (c2_status200_result .getConfig ⟨200, .str "body", .str "raw"⟩ rfl).2⟩

/-! ## C3 -/

/-- C3: whatever the network, the address and the response's data, a status-204
response makes `getAccountMetadata` resolve to `null`; nothing is raised. -/
theorem c3_getAccountMetadata_204_null (network address : String) (r : Response)
    (h : r.status = 204) :
    (getAccountMetadata network address).run (fun _ => .resolved (.response r)) = .ok .null := by
  simp [Call.run, getAccountMetadata, Op.respond, Op.onResolved, Op.hasCatch, Outcome.toPromise,
    Except.bind, metadataCheck_response, h]

/-- C3 at a concrete 204 response that carries data. -/
theorem c3_getAccountMetadata_204_null_witness :
    (204 : Int) = 204 ∧
    (getAccountMetadata "mainnet" "tz1abc").run
      (fun _ => .resolved (.response ⟨204, .str "ignored", .null⟩)) = .ok .null :=
  ⟨rfl, c3_getAccountMetadata_204_null "mainnet" "tz1abc" ⟨204, .str "ignored", .null⟩ rfl⟩

/-! ## C4 -/

/-- C4: on one and the same status-204 response `resolveDomain` resolves to the
empty object (which is not `null`, and is returned whatever `res.data` holds)
while `getAccountMetadata` resolves to `null`; neither rejects. -/
theorem c4_204_policy_per_endpoint (network address : String) (r : Response)
    (h : r.status = 204) :
    (resolveDomain network address).run (fun _ => .resolved (.response r)) = .ok (.obj []) ∧
    (getAccountMetadata network address).run (fun _ => .resolved (.response r)) = .ok .null ∧
    JsVal.obj [] ≠ JsVal.null ∧
    (r.data ≠ .obj [] →
      (resolveDomain network address).run (fun _ => .resolved (.response r)) ≠ .ok r.data) := by
  have hd : (resolveDomain network address).run (fun _ => .resolved (.response r)) =
      .ok (.obj []) := by
    simp [Call.run, resolveDomain, Op.respond, Op.onResolved, Op.hasCatch, Outcome.toPromise,
      Except.bind, domainCheck_response, h]
  refine ⟨hd, ?_, ?_, ?_⟩
  · simp [Call.run, getAccountMetadata, Op.respond, Op.onResolved, Op.hasCatch,
      Outcome.toPromise, Except.bind, metadataCheck_response, h]
  · intro hne
    cases hne
  · intro hdata heq
    rw [hd] at heq
    injection heq with heq
    exact hdata heq.symm

/-- C4 at a concrete 204 response that carries data. -/
theorem c4_204_policy_per_endpoint_witness :
    (204 : Int) = 204 ∧
    (resolveDomain "mainnet" "tz1abc").run
      (fun _ => .resolved (.response ⟨204, .str "data", .null⟩)) = .ok (.obj []) ∧
    (getAccountMetadata "mainnet" "tz1abc").run
      (fun _ => .resolved (.response ⟨204, .str "data", .null⟩)) = .ok .null :=
  ⟨rfl,
   (c4_204_policy_per_endpoint "mainnet" "tz1abc" ⟨204, .str "data", .null⟩ rfl).1,
   (c4_204_policy_per_endpoint "mainnet" "tz1abc" ⟨204, .str "data", .null⟩ rfl).2.1⟩

/-! ## C5 -/

/-- C5, as stated, fails: `verifyContract` is credentialed, yet a transport
failure carrying a 401 response is passed on unchanged, not as `UnauthorizedError`. -/
theorem c5_counterexample :
    Op.credentialed .verifyContract = true ∧
    Op.verifyContract.respond (.rejected ⟨"401", some ⟨401, .null, .null⟩⟩) =
      .error (.transport ⟨"401", some ⟨401, .null, .null⟩⟩) ∧
    Op.verifyContract.respond (.rejected ⟨"401", some ⟨401, .null, .null⟩⟩) ≠
      .error (.unauthorized ⟨"401", some ⟨401, .null, .null⟩⟩) := by
  refine ⟨rfl, rfl, ?_⟩
  intro h
  cases h

/-- C5 (amended): on a transport failure whose attached response has status 401,
a credentialed operation that installs the rejection handler (`vote`, `getTasks`,
`generateTasks`, `getProfile`, `profileMarkAllRead`, `getProfileSubscriptions`,
`addProfileSubscription`, `removeProfileSubscription`, `getProfileEvents`) rejects
with `UnauthorizedError`; every other credentialed operation rejects with the
transport's error itself. -/
theorem c5_unauthorized_on_401 (op : Op) (err : TransportError) (r : Response)
    (hop : op.credentialed = true) (hr : err.response = some r) (h : r.status = 401) :
    (op.hasCatch = true → op.respond (.rejected err) = .error (.unauthorized err)) ∧
    (op.hasCatch = false → op.respond (.rejected err) = .error (.transport err)) := by
  cases op <;>
    simp_all [Op.respond, Op.hasCatch, Op.credentialed, Outcome.toPromise, Except.bind,
      Except.tryCatch, catch401, throw, throwThe, MonadExceptOf.throw]

/-- C5 (amended) at a concrete 401 failure, for `vote` and for `getProfileAccounts`. -/
theorem c5_unauthorized_on_401_witness :
    Op.credentialed .vote = true ∧ Op.credentialed .getProfileAccounts = true ∧
    (401 : Int) = 401 ∧
    Op.vote.respond (.rejected ⟨"401", some ⟨401, .null, .null⟩⟩) =
      .error (.unauthorized ⟨"401", some ⟨401, .null, .null⟩⟩) ∧
    Op.getProfileAccounts.respond (.rejected ⟨"401", some ⟨401, .null, .null⟩⟩) =
      .error (.transport ⟨"401", some ⟨401, .null, .null⟩⟩) :=
  ⟨rfl, rfl, rfl,
   (c5_unauthorized_on_401 .vote ⟨"401", some ⟨401, .null, .null⟩⟩ ⟨401, .null, .null⟩
      rfl rfl rfl).1 rfl,
   (c5_unauthorized_on_401 .getProfileAccounts ⟨"401", some ⟨401, .null, .null⟩⟩
      ⟨401, .null, .null⟩ rfl rfl rfl).2 rfl⟩

/-! ## C6 -/

/-- C6: for each of the nine profile operations and every transport error, the
operation rejects with `UnauthorizedError` exactly when the error has an attached
response with status 401; otherwise it rejects with the error itself. -/
theorem c6_unauthorized_iff_401 (op : Op) (err : TransportError)
    (hop : op ∈ [Op.vote, Op.getTasks, Op.generateTasks, Op.getProfile, Op.profileMarkAllRead,
      Op.getProfileSubscriptions, Op.addProfileSubscription, Op.removeProfileSubscription,
      Op.getProfileEvents]) :
    (op.respond (.rejected err) = .error (.unauthorized err) ↔
      ∃ r, err.response = some r ∧ r.status = 401) ∧
    ((¬ ∃ r, err.response = some r ∧ r.status = 401) →
      op.respond (.rejected err) = .error (.transport err)) := by
  have key : op.respond (.rejected err) = catch401 (.transport err) := by
    simp only [List.mem_cons, List.mem_singleton, List.not_mem_nil, or_false] at hop
    rcases hop with rfl | rfl | rfl | rfl | rfl | rfl | rfl | rfl | rfl <;> rfl
  rw [key]
  rcases err with ⟨msg, _ | r⟩
  · simp [catch401, throw, throwThe, MonadExceptOf.throw]
  · by_cases h : r.status = 401 <;>
      simp [catch401, throw, throwThe, MonadExceptOf.throw, h]

/-- C6 for `vote`, at a 401 failure. -/
theorem c6_unauthorized_iff_401_witness :
    Op.vote ∈ [Op.vote, Op.getTasks, Op.generateTasks, Op.getProfile, Op.profileMarkAllRead,
      Op.getProfileSubscriptions, Op.addProfileSubscription, Op.removeProfileSubscription,
      Op.getProfileEvents] ∧
    (Op.vote.respond (.rejected ⟨"401", some ⟨401, .null, .null⟩⟩) =
        .error (.unauthorized ⟨"401", some ⟨401, .null, .null⟩⟩) ↔
      ∃ r, (TransportError.mk "401" (some ⟨401, .null, .null⟩)).response = some r ∧
        r.status = 401) :=
  ⟨by decide,
   (c6_unauthorized_iff_401 .vote ⟨"401", some ⟨401, .null, .null⟩⟩ (by decide)).1⟩

/-! ## C8 -/

/-- The operations issued through the tracker whose `.then` handler reads
`res.status` without the `!res` guard reject on every no-result value; the guarded
ones resolve to the value itself or to `null`. -/
theorem respond_noResult (op : Op) (v : Falsy) (hop : op.transport ≠ .axios) :
    (op.respond (.resolved (.noResult v)) = .ok v.toVal ∨
      op.respond (.resolved (.noResult v)) = .ok .null) ∨
    (op ∈ [Op.getContractCode, Op.prepareToFork, Op.getContractBigMapHistory,
        Op.getRandomContract, Op.getTokensByVersion, Op.getProjects, Op.getOPG,
        Op.getContractBySlug, Op.getDApps, Op.getDApp, Op.listDomains, Op.resolveDomain,
        Op.getProfileAccounts, Op.getProfileRepos, Op.getProfileRefs,
        Op.getProfileCompilations, Op.getVerificationList, Op.getDeploymentList] ∧
      ∃ e, op.respond (.resolved (.noResult v)) = .error e) := by
  cases op <;> cases v <;>
    simp_all [Op.respond, Op.onResolved, Op.hasCatch, Op.transport, Outcome.toPromise, Except.bind,
      guardedCheck, guardedNullCheck, metadataCheck, entrypointDataCheck, checkStatus, domainCheck,
      Resolved.status, RequestFailedError, bind, pure, Except.pure, throw, throwThe,
      MonadExceptOf.throw]

/-- C8 fails on the code: `getContractCode` is issued through `getCancellable`,
and when the tracker resolves to `undefined` the handler reads `res.status` and the
operation rejects with a `TypeError`; `getHead`, which guards, resolves to the value. -/
theorem c8_getContractCode_cancelled_raises :
    Op.transport .getContractCode = .getCancellable ∧
    Op.getContractCode.respond (.resolved (.noResult .undefined)) = .error .typeError ∧
    Op.getHead.respond (.resolved (.noResult .undefined)) = .ok .undefined :=
  ⟨rfl, rfl, rfl⟩

/-! ## Integers in template literals -/

theorem digitChar_not_delim (d : Nat) (h : d < 10) :
    Nat.digitChar d ≠ '&' ∧ Nat.digitChar d ≠ '=' ∧ Nat.digitChar d ≠ '?' := by
  interval_cases d <;> decide

theorem toDigitsCore_not_delim (fuel n : Nat) (acc : List Char)
    (hacc : ∀ c ∈ acc, c ≠ '&' ∧ c ≠ '=' ∧ c ≠ '?') :
    ∀ c ∈ Nat.toDigitsCore 10 fuel n acc, c ≠ '&' ∧ c ≠ '=' ∧ c ≠ '?' := by
  induction fuel generalizing n acc with
  | zero => simpa [Nat.toDigitsCore] using hacc
  | succ fuel ih =>
    have hd := digitChar_not_delim (n % 10) (Nat.mod_lt _ (by decide))
    have hacc' : ∀ c ∈ Nat.digitChar (n % 10) :: acc, c ≠ '&' ∧ c ≠ '=' ∧ c ≠ '?' := by
      intro c hc
      rcases List.mem_cons.1 hc with rfl | hc
      · exact hd
      · exact hacc c hc
    unfold Nat.toDigitsCore
    by_cases h0 : n / 10 = 0
    · simpa [h0] using hacc'
    · simpa [h0] using ih _ _ hacc'

theorem numToString_not_delim (n : Int) :
    ∀ c ∈ (numToString n).data, c ≠ '&' ∧ c ≠ '=' ∧ c ≠ '?' := by
  have hnat : ∀ m : Nat, ∀ c ∈ (toString m).data, c ≠ '&' ∧ c ≠ '=' ∧ c ≠ '?' := by
    intro m
    exact toDigitsCore_not_delim _ _ [] (by simp)
  cases n with
  | ofNat m => exact hnat m
  | negSucc m =>
    intro c hc
    have hc' : c ∈ ("-" ++ toString (m + 1)).data := hc
    rw [String.data_append] at hc'
    rcases List.mem_append.1 hc' with h | h
    · have : c = '-' := by simpa using h
      subst this
      decide
    · exact hnat _ c h

/-! ## Query strings -/

theorem join_data (sep : String) (xs : List String) :
    (join sep xs).data = List.intercalate sep.data (xs.map String.data) := by
  induction xs with
  | nil => rfl
  | cons x rest ih =>
    cases rest with
    | nil => simp [join, List.intercalate]
    | cons y rest =>
      simp only [join, String.data_append, ih]
      simp [List.intercalate, List.intersperse]

theorem dropWhile_ne_append (sep : Char) (p s : List Char) (hp : ∀ c ∈ p, c ≠ sep) :
    (p ++ sep :: s).dropWhile (fun c => c != sep) = sep :: s := by
  induction p with
  | nil => simp
  | cons a p ih =>
    have ha : a ≠ sep := hp a (List.mem_cons_self _ _)
    have := ih (fun c hc => hp c (List.mem_cons_of_mem _ hc))
    simp [List.dropWhile_cons, ha, this]

theorem takeWhile_ne_append (sep : Char) (p s : List Char) (hp : ∀ c ∈ p, c ≠ sep) :
    (p ++ sep :: s).takeWhile (fun c => c != sep) = p := by
  induction p with
  | nil => simp
  | cons a p ih =>
    have ha : a ≠ sep := hp a (List.mem_cons_self _ _)
    have := ih (fun c hc => hp c (List.mem_cons_of_mem _ hc))
    simp [List.takeWhile_cons, ha, this]

theorem urlQuery_append (p s : String) (hp : ∀ c ∈ p.data, c ≠ '?') :
    urlQuery (p ++ "?" ++ s) = s.data := by
  have h : (p ++ "?" ++ s).data = p.data ++ '?' :: s.data := by
    simp [String.data_append]
  simp [urlQuery, h, dropWhile_ne_append '?' p.data s.data hp]

theorem segmentField_append (k v : String) (hk : ∀ c ∈ k.data, c ≠ '=') :
    segmentField (k ++ "=" ++ v).data = (k, v) := by
  have h : (k ++ "=" ++ v).data = k.data ++ '=' :: v.data := by
    simp [String.data_append]
  simp [segmentField, h, dropWhile_ne_append '=' k.data v.data hk,
    takeWhile_ne_append '=' k.data v.data hk]

theorem queryFields_join (p : String) (segs : List String) (hp : ∀ c ∈ p.data, c ≠ '?')
    (hsegs : ∀ s ∈ segs, ∀ c ∈ s.data, c ≠ '&') :
    queryFields (p ++ "?" ++ join "&" segs) =
      ((segs.map String.data).filter (fun seg => !seg.isEmpty)).map segmentField := by
  unfold queryFields
  rw [urlQuery_append p _ hp, join_data]
  cases segs with
  | nil => simp [List.intercalate, List.splitOn, List.splitOnP, List.splitOnP.go]
  | cons s rest =>
    have hd : ("&" : String).data = ['&'] := rfl
    rw [hd, List.splitOn_intercalate]
    · intro l hl
      obtain ⟨s', hs', rfl⟩ := List.mem_map.1 hl
      intro hmem
      exact hsegs s' hs' '&' hmem rfl
    · simp

/-! ## Object fields -/

theorem getField_setField (k k' : String) (v : JsVal) (fs : Fields) :
    getField k (setField k' v fs) = if k' = k then some v else getField k fs := by
  induction fs with
  | nil => simp [setField, getField]
  | cons p rest ih =>
    obtain ⟨a, b⟩ := p
    by_cases h : a = k'
    · subst h
      by_cases h' : a = k <;> simp [setField, getField, h']
    · by_cases h' : a = k
      · subst h'
        have : ¬ k' = a := fun e => h e.symm
        simp [setField, getField, h, this]
      · simp [setField, getField, h, h', ih]

theorem getField_objectAssign (k : String) (target source : Fields)
    (h : getField k source = none) :
    getField k (objectAssign target source) = getField k target := by
  unfold objectAssign
  induction source generalizing target with
  | nil => rfl
  | cons p rest ih =>
    obtain ⟨a, b⟩ := p
    have hak : ¬ a = k := by
      intro e
      simp [getField, e] at h
    have hrest : getField k rest = none := by
      simpa [getField, hak] using h
    rw [List.foldl_cons, ih _ hrest, getField_setField, if_neg hak]

theorem search_param (text : String) (indices : List String) (offset : Int)
    (networks languages : List String) (time : Fields) (group : Int) (k : String)
    (h : getField k time = none) :
    (search text indices offset networks languages time group).request.param k =
      getField k
        (let params : Fields := [("q", .str text)]
         let params := if offset > 0 then setField "o" (.num offset) params else params
         let params := if indices.length > 0 then setField "i" (.str (join "," indices)) params else params
         let params := if networks.length > 0 then setField "n" (.str (join "," networks)) params else params
         let params := if languages.length > 0 then setField "l" (.str (join "," languages)) params else params
         if group ≥ 0 then setField "g" (.num 1) params else params) := by
  simp only [search, Request.param, Request.config, JsVal.field, getField, if_true]
  rw [getField_objectAssign _ _ _ h]

theorem search_param_o (text : String) (indices : List String) (offset : Int)
    (networks languages : List String) (time : Fields) (group : Int)
    (h : getField "o" time = none) :
    (search text indices offset networks languages time group).request.param "o" =
      if offset > 0 then some (.num offset) else none := by
  rw [search_param _ _ _ _ _ _ _ _ h]
  simp only []
  split_ifs <;> simp [getField_setField, getField]

theorem append_no_char (sep : Char) (a b : String) (ha : ∀ c ∈ a.data, c ≠ sep)
    (hb : ∀ c ∈ b.data, c ≠ sep) : ∀ c ∈ (a ++ b).data, c ≠ sep := by
  intro c hc
  rw [String.data_append] at hc
  rcases List.mem_append.1 hc with h | h
  · exact ha c h
  · exact hb c h

theorem numToString_no_amp (n : Int) : ∀ c ∈ (numToString n).data, c ≠ '&' :=
  fun c hc => (numToString_not_delim n c hc).1

theorem queryFields_limit_offset (p : String) (hp : ∀ c ∈ p.data, c ≠ '?') (limit offset : Int) :
    queryFields (p ++ "?" ++ join "&"
        (let params : List String := []
         let params := if limit > 0 then params ++ ["limit=" ++ numToString limit] else params
         if offset > 0 then params ++ ["offset=" ++ numToString offset] else params)) =
      (if limit > 0 then [("limit", numToString limit)] else []) ++
        (if offset > 0 then [("offset", numToString offset)] else []) := by
  have hl : ∀ c ∈ ("limit=" ++ numToString limit).data, c ≠ '&' :=
    append_no_char '&' _ _ (by decide) (numToString_no_amp limit)
  have ho : ∀ c ∈ ("offset=" ++ numToString offset).data, c ≠ '&' :=
    append_no_char '&' _ _ (by decide) (numToString_no_amp offset)
  have el : segmentField ("limit=" ++ numToString limit).data = ("limit", numToString limit) :=
    segmentField_append "limit" (numToString limit) (by decide)
  have eo : segmentField ("offset=" ++ numToString offset).data = ("offset", numToString offset) :=
    segmentField_append "offset" (numToString offset) (by decide)
  have nl : ("limit=" ++ numToString limit).data ≠ [] := by
    rw [String.data_append]
    exact List.append_ne_nil_of_left_ne_nil (by decide) _
  have no : ("offset=" ++ numToString offset).data ≠ [] := by
    rw [String.data_append]
    exact List.append_ne_nil_of_left_ne_nil (by decide) _
  simp only [String.data_append, String.reduceMk, List.cons_append, List.nil_append] at el eo
  rw [queryFields_join p _ hp]
  · by_cases h1 : limit > 0 <;> by_cases h2 : offset > 0 <;>
      simp [h1, h2, el, eo, nl, no]
  · intro s hs
    by_cases h1 : limit > 0 <;> by_cases h2 : offset > 0 <;>
      simp [h1, h2] at hs
    · rcases hs with rfl | rfl
      · exact hl
      · exact ho
    · subst hs
      exact hl
    · subst hs
      exact ho

/-! ## C7 -/

/-- C7, as stated, fails: with the empty credential `vote` still puts an
`Authorization` entry (holding the empty string) into the request's headers. -/
theorem c7_counterexample :
    (JsVal.str "").truthy = false ∧
    (vote (.str "") (.str "main") (.str "KT1a") (.str "main") (.str "KT1b")
        (.num 1)).request.header "Authorization" = some (.str "") ∧
    (vote (.str "") (.str "main") (.str "KT1a") (.str "main") (.str "KT1b")
        (.num 1)).request.header "Authorization" ≠ none := by
  refine ⟨rfl, rfl, ?_⟩
  intro h
  cases h

/-- C7 (amended): `getContract` puts the `Authorization` header into the request
exactly when `getJwt()` returned a truthy token, and then the header is that token;
every other credentialed operation always puts an `Authorization` entry into the
request's headers, holding whatever `getJwt()` returned at call time (the token
when there is one, the empty or missing value otherwise). -/
theorem c7_authorization_header (jwt : JsVal) :
    (∀ network address, (getContract jwt network address).request.header "Authorization" =
      if jwt.truthy then some jwt else none) ∧
    (∀ sn sa dn da v, (vote jwt sn sa dn da v).request.header "Authorization" = some jwt) ∧
    (getTasks jwt).request.header "Authorization" = some jwt ∧
    (generateTasks jwt).request.header "Authorization" = some jwt ∧
    (getProfile jwt).request.header "Authorization" = some jwt ∧
    (∀ timestamp, (profileMarkAllRead jwt timestamp).request.header "Authorization" = some jwt) ∧
    (getProfileSubscriptions jwt).request.header "Authorization" = some jwt ∧
    (∀ subscription,
      (addProfileSubscription jwt subscription).request.header "Authorization" = some jwt) ∧
    (∀ network address,
      (removeProfileSubscription jwt network address).request.header "Authorization" = some jwt) ∧
    (∀ offset, (getProfileEvents jwt offset).request.header "Authorization" = some jwt) ∧
    (getProfileAccounts jwt).request.header "Authorization" = some jwt ∧
    (∀ login, (getProfileRepos jwt login).request.header "Authorization" = some jwt) ∧
    (∀ owner repo, (getProfileRefs jwt owner repo).request.header "Authorization" = some jwt) ∧
    (∀ limit offset,
      (getProfileCompilations jwt limit offset).request.header "Authorization" = some jwt) ∧
    (getVerificationList jwt).request.header "Authorization" = some jwt ∧
    (∀ network address account repo ref,
      (verifyContract jwt network address account repo ref).request.header "Authorization" =
        some jwt) ∧
    (∀ limit offset,
      (getDeploymentList jwt limit offset).request.header "Authorization" = some jwt) ∧
    (∀ network address repo ref,
      (deployContract jwt network address repo ref).request.header "Authorization" = some jwt) ∧
    (∀ hash taskId resultId,
      (finalizeDeployContract jwt hash taskId resultId).request.header "Authorization" =
        some jwt) := by
  refine ⟨?_, ?_, ?_, ?_, ?_, ?_, ?_, ?_, ?_, ?_, ?_, ?_, ?_, ?_, ?_, ?_, ?_, ?_, ?_⟩
  · intro network address
    by_cases h : jwt.truthy = true <;>
      simp [getContract, Request.header, Request.config, JsVal.field, getField, setField, h]
  all_goals
    intros
    simp [vote, getTasks, generateTasks, getProfile, profileMarkAllRead, getProfileSubscriptions,
      addProfileSubscription, removeProfileSubscription, getProfileEvents, getProfileAccounts,
      getProfileRepos, getProfileRefs, getProfileCompilations, getVerificationList,
      verifyContract, getDeploymentList, deployContract, finalizeDeployContract, authConfig,
      Request.header, Request.config, JsVal.field, getField]

/-- The operations whose request carries the header are the ones marked as
credentialed. -/
theorem credentialed_ops (jwt : JsVal) (s : String) (v : JsVal) (n : Int) :
    (getContract jwt s s).op.credentialed = true ∧ (vote jwt v v v v v).op.credentialed = true ∧
    (getTasks jwt).op.credentialed = true ∧ (generateTasks jwt).op.credentialed = true ∧
    (getProfile jwt).op.credentialed = true ∧
    (profileMarkAllRead jwt v).op.credentialed = true ∧
    (getProfileSubscriptions jwt).op.credentialed = true ∧
    (addProfileSubscription jwt v).op.credentialed = true ∧
    (removeProfileSubscription jwt v v).op.credentialed = true ∧
    (getProfileEvents jwt n).op.credentialed = true ∧
    (getProfileAccounts jwt).op.credentialed = true ∧
    (getProfileRepos jwt s).op.credentialed = true ∧
    (getProfileRefs jwt s s).op.credentialed = true ∧
    (getProfileCompilations jwt n n).op.credentialed = true ∧
    (getVerificationList jwt).op.credentialed = true ∧
    (verifyContract jwt v v v v v).op.credentialed = true ∧
    (getDeploymentList jwt n n).op.credentialed = true ∧
    (deployContract jwt v v v v).op.credentialed = true ∧
    (finalizeDeployContract jwt v v v).op.credentialed = true :=
  ⟨rfl, rfl, rfl, rfl, rfl, rfl, rfl, rfl, rfl, rfl, rfl, rfl, rfl, rfl, rfl, rfl, rfl, rfl, rfl⟩

/-! ## Query strings of the operations -/

theorem queryFields_getProfileCompilations (jwt : JsVal) (limit offset : Int) :
    queryFields (getProfileCompilations jwt limit offset).request.url =
      (if limit > 0 then [("limit", numToString limit)] else []) ++
        (if offset > 0 then [("offset", numToString offset)] else []) :=
  queryFields_limit_offset "/profile/compilations" (by decide) limit offset

theorem queryFields_getDeploymentList (jwt : JsVal) (limit offset : Int) :
    queryFields (getDeploymentList jwt limit offset).request.url =
      (if limit > 0 then [("limit", numToString limit)] else []) ++
        (if offset > 0 then [("offset", numToString offset)] else []) :=
  queryFields_limit_offset "/profile/compilations/deployment" (by decide) limit offset

theorem lookup_limit_offset (limit offset : Int) :
    List.lookup "limit" ((if limit > 0 then [("limit", numToString limit)] else []) ++
        (if offset > 0 then [("offset", numToString offset)] else [])) =
      (if limit > 0 then some (numToString limit) else none) ∧
    List.lookup "offset" ((if limit > 0 then [("limit", numToString limit)] else []) ++
        (if offset > 0 then [("offset", numToString offset)] else [])) =
      (if offset > 0 then some (numToString offset) else none) := by
  by_cases h1 : limit > 0 <;> by_cases h2 : offset > 0 <;>
    simp [h1, h2, List.lookup]

theorem queryFields_getContractBigMapKeys (network ptr q : String) (offset : Int)
    (hn : ∀ c ∈ network.data, c ≠ '?') (hp : ∀ c ∈ ptr.data, c ≠ '?')
    (hq : ∀ c ∈ q.data, c ≠ '&') :
    queryFields (getContractBigMapKeys network ptr q offset).request.url =
      [("q", q), ("offset", numToString offset)] := by
  have hurl : (getContractBigMapKeys network ptr q offset).request.url =
      ("/bigmap/" ++ network ++ "/" ++ ptr ++ "/keys") ++ "?" ++
        join "&" ["q=" ++ q, "offset=" ++ numToString offset] := by
    simp [getContractBigMapKeys, Request.url, join, String.ext_iff, String.data_append]
  have hpath : ∀ c ∈ ("/bigmap/" ++ network ++ "/" ++ ptr ++ "/keys").data, c ≠ '?' :=
    append_no_char '?' _ _
      (append_no_char '?' _ _
        (append_no_char '?' _ _ (append_no_char '?' _ _ (by decide) hn) (by decide)) hp)
      (by decide)
  have eq : segmentField ("q=" ++ q).data = ("q", q) :=
    segmentField_append "q" q (by decide)
  have eo : segmentField ("offset=" ++ numToString offset).data = ("offset", numToString offset) :=
    segmentField_append "offset" (numToString offset) (by decide)
  simp only [String.data_append, String.reduceMk, List.cons_append, List.nil_append] at eq eo
  rw [hurl, queryFields_join _ _ hpath]
  · simp [eq, eo]
  · intro s hs
    simp only [List.mem_cons, List.mem_singleton, List.not_mem_nil, or_false] at hs
    rcases hs with rfl | rfl
    · exact append_no_char '&' _ _ (by decide) hq
    · exact append_no_char '&' _ _ (by decide) (numToString_no_amp offset)

theorem queryFields_getContractBigMapHistory (network ptr keyhash : String) (offset : Int)
    (hn : ∀ c ∈ network.data, c ≠ '?') (hp : ∀ c ∈ ptr.data, c ≠ '?')
    (hk : ∀ c ∈ keyhash.data, c ≠ '?') :
    queryFields (getContractBigMapHistory network ptr keyhash offset).request.url =
      [("offset", numToString offset)] := by
  have hurl : (getContractBigMapHistory network ptr keyhash offset).request.url =
      ("/bigmap/" ++ network ++ "/" ++ ptr ++ "/keys/" ++ keyhash) ++ "?" ++
        join "&" ["offset=" ++ numToString offset] := by
    simp [getContractBigMapHistory, Request.url, join, String.ext_iff, String.data_append]
  have hpath : ∀ c ∈ ("/bigmap/" ++ network ++ "/" ++ ptr ++ "/keys/" ++ keyhash).data,
      c ≠ '?' :=
    append_no_char '?' _ _
      (append_no_char '?' _ _
        (append_no_char '?' _ _
          (append_no_char '?' _ _ (append_no_char '?' _ _ (by decide) hn) (by decide)) hp)
        (by decide)) hk
  have eo : segmentField ("offset=" ++ numToString offset).data = ("offset", numToString offset) :=
    segmentField_append "offset" (numToString offset) (by decide)
  simp only [String.data_append, String.reduceMk, List.cons_append, List.nil_append] at eo
  rw [hurl, queryFields_join _ _ hpath]
  · simp [eo]
  · intro s hs
    simp only [List.mem_singleton] at hs
    subst hs
    exact append_no_char '&' _ _ (by decide) (numToString_no_amp offset)

/-! ## C9 -/

/-- C9, as stated, fails: `getAccountTokenBalances` and `getContractBigMapKeys`
send `offset` (and `size`) also when the value is 0, and in `search` the `time`
object can define the field `o` although `offset` is 0. -/
theorem c9_counterexample :
    (getAccountTokenBalances "main" "tz1a" 0 0).request.param "offset" = some (.num 0) ∧
    (getAccountTokenBalances "main" "tz1a" 0 0).request.param "size" = some (.num 0) ∧
    queryParam (getContractBigMapKeys "main" "17" "" 0).request.url "offset" = some "0" ∧
    (search "foo" [] 0 [] [] [("o", .num 5)] 0).request.param "o" = some (.num 5) :=
  ⟨rfl, rfl, by decide, rfl⟩

/-- C9 (amended): the operations that guard a pagination argument leave the field
out for a value `≤ 0` and send exactly the value when it is `> 0`: `search` (field
`o`, when `time` does not define `o`), `getSameContracts`, `getSimilarContracts`,
`getContractTransfers`, `getAccountTransfers`, `getTokensByVersion`, `listDomains`
(parameters) and `getProfileCompilations`, `getDeploymentList` (query string).
The other listed operations send the field with exactly the given value whatever it
is: `getAccountTokenBalances`, `getContractTokens`, `getProfileEvents` (parameters)
and `getContractBigMapKeys`, `getContractBigMapHistory` (query string, for path
arguments without a question mark and a `q` without an ampersand). -/
theorem c9_pagination_fields :
    (∀ text indices offset networks languages time group, getField "o" time = none →
      (search text indices offset networks languages time group).request.param "o" =
        if offset > 0 then some (.num offset) else none) ∧
    (∀ network address offset,
      (getSameContracts network address offset).request.param "offset" =
        if offset > 0 then some (.num offset) else none) ∧
    (∀ network address offset,
      (getSimilarContracts network address offset).request.param "offset" =
        if offset > 0 then some (.num offset) else none) ∧
    (∀ network address token_id size offset,
      (getContractTransfers network address token_id size offset).request.param "size" =
        (if size > 0 then some (.num size) else none) ∧
      (getContractTransfers network address token_id size offset).request.param "offset" =
        (if offset > 0 then some (.num offset) else none)) ∧
    (∀ network address token_id contracts size last_id,
      (getAccountTransfers network address token_id contracts size last_id).request.param "size" =
        if size > 0 then some (.num size) else none) ∧
    (∀ network version offset size,
      (getTokensByVersion network version offset size).request.param "size" =
        (if size > 0 then some (.num size) else none) ∧
      (getTokensByVersion network version offset size).request.param "offset" =
        (if offset > 0 then some (.num offset) else none)) ∧
    (∀ network offset size,
      (listDomains network offset size).request.param "size" =
        (if size > 0 then some (.num size) else none) ∧
      (listDomains network offset size).request.param "offset" =
        (if offset > 0 then some (.num offset) else none)) ∧
    (∀ jwt limit offset,
      queryParam (getProfileCompilations jwt limit offset).request.url "limit" =
        (if limit > 0 then some (numToString limit) else none) ∧
      queryParam (getProfileCompilations jwt limit offset).request.url "offset" =
        (if offset > 0 then some (numToString offset) else none)) ∧
    (∀ jwt limit offset,
      queryParam (getDeploymentList jwt limit offset).request.url "limit" =
        (if limit > 0 then some (numToString limit) else none) ∧
      queryParam (getDeploymentList jwt limit offset).request.url "offset" =
        (if offset > 0 then some (numToString offset) else none)) ∧
    (∀ network address offset size,
      (getAccountTokenBalances network address offset size).request.param "offset" =
        some (.num offset) ∧
      (getAccountTokenBalances network address offset size).request.param "size" =
        some (.num size)) ∧
    (∀ network address offset size,
      (getContractTokens network address offset size).request.param "offset" =
        some (.num offset) ∧
      (getContractTokens network address offset size).request.param "size" =
        some (.num size)) ∧
    (∀ jwt offset, (getProfileEvents jwt offset).request.param "offset" = some (.num offset)) ∧
    (∀ network ptr q offset, (∀ c ∈ network.data, c ≠ '?') → (∀ c ∈ ptr.data, c ≠ '?') →
      (∀ c ∈ q.data, c ≠ '&') →
      queryParam (getContractBigMapKeys network ptr q offset).request.url "offset" =
        some (numToString offset)) ∧
    (∀ network ptr keyhash offset, (∀ c ∈ network.data, c ≠ '?') →
      (∀ c ∈ ptr.data, c ≠ '?') → (∀ c ∈ keyhash.data, c ≠ '?') →
      queryParam (getContractBigMapHistory network ptr keyhash offset).request.url "offset" =
        some (numToString offset)) := by
  refine ⟨?_, ?_, ?_, ?_, ?_, ?_, ?_, ?_, ?_, ?_, ?_, ?_, ?_, ?_⟩
  · intro text indices offset networks languages time group h
    exact search_param_o text indices offset networks languages time group h
  · intro network address offset
    by_cases h : offset > 0 <;>
      simp [getSameContracts, Request.param, Request.config, JsVal.field, getField, setField, h]
  · intro network address offset
    by_cases h : offset > 0 <;>
      simp [getSimilarContracts, Request.param, Request.config, JsVal.field, getField, setField, h]
  · intro network address token_id size offset
    by_cases h0 : token_id > -1 <;> by_cases h1 : size > 0 <;> by_cases h2 : offset > 0 <;>
      simp [getContractTransfers, Request.param, Request.config, JsVal.field, getField, setField,
        h0, h1, h2]
  · intro network address token_id contracts size last_id
    simp only [getAccountTransfers, Request.param, Request.config, JsVal.field, getField, if_true]
    split_ifs <;> simp [getField_setField, getField]
  · intro network version offset size
    by_cases h1 : size > 0 <;> by_cases h2 : offset > 0 <;>
      simp [getTokensByVersion, Request.param, Request.config, JsVal.field, getField, setField,
        h1, h2]
  · intro network offset size
    by_cases h1 : size > 0 <;> by_cases h2 : offset > 0 <;>
      simp [listDomains, Request.param, Request.config, JsVal.field, getField, setField, h1, h2]
  · intro jwt limit offset
    unfold queryParam
    rw [queryFields_getProfileCompilations]
    exact lookup_limit_offset limit offset
  · intro jwt limit offset
    unfold queryParam
    rw [queryFields_getDeploymentList]
    exact lookup_limit_offset limit offset
  · intro network address offset size
    simp [getAccountTokenBalances, Request.param, Request.config, JsVal.field, getField]
  · intro network address offset size
    simp [getContractTokens, Request.param, Request.config, JsVal.field, getField]
  · intro jwt offset
    simp [getProfileEvents, Request.param, Request.config, JsVal.field, getField]
  · intro network ptr q offset hn hp hq
    unfold queryParam
    rw [queryFields_getContractBigMapKeys network ptr q offset hn hp hq]
    simp [List.lookup]
  · intro network ptr keyhash offset hn hp hk
    unfold queryParam
    rw [queryFields_getContractBigMapHistory network ptr keyhash offset hn hp hk]
    simp [List.lookup]

/-- C9 (amended) at concrete calls: `search` with a `time` range, and the two
big-map operations with plain path arguments. -/
theorem c9_pagination_fields_witness :
    getField "o" [("s", JsVal.num 1), ("e", JsVal.num 2)] = none ∧
    (search "foo" [] 0 [] [] [("s", .num 1), ("e", .num 2)] 0).request.param "o" = none ∧
    (search "foo" [] 20 [] [] [("s", .num 1), ("e", .num 2)] 0).request.param "o" =
      some (.num 20) ∧
    queryParam (getContractBigMapKeys "main" "17" "abc" 10).request.url "offset" =
      some (numToString 10) ∧
    queryParam (getContractBigMapHistory "main" "17" "expr" (-1)).request.url "offset" =
      some (numToString (-1)) :=
  ⟨rfl,
   c9_pagination_fields.1 "foo" [] 0 [] [] [("s", .num 1), ("e", .num 2)] 0 rfl,
   c9_pagination_fields.1 "foo" [] 20 [] [] [("s", .num 1), ("e", .num 2)] 0 rfl,
   c9_pagination_fields.2.2.2.2.2.2.2.2.2.2.2.2.1 "main" "17" "abc" 10
     (by decide) (by decide) (by decide),
   c9_pagination_fields.2.2.2.2.2.2.2.2.2.2.2.2.2 "main" "17" "expr" (-1)
     (by decide) (by decide) (by decide)⟩

/-! ## C10 -/

theorem join_no_char (c0 : Char) (sep : String) (xs : List String)
    (hsep : ∀ c ∈ sep.data, c ≠ c0) (hxs : ∀ x ∈ xs, ∀ c ∈ x.data, c ≠ c0) :
    ∀ c ∈ (join sep xs).data, c ≠ c0 := by
  induction xs with
  | nil =>
    intro c hc
    simp [join] at hc
  | cons x rest ih =>
    cases rest with
    | nil => simpa [join] using hxs x (List.mem_cons_self _ _)
    | cons y rest =>
      have hx := hxs x (List.mem_cons_self _ _)
      have hrest := ih (fun z hz => hxs z (List.mem_cons_of_mem _ hz))
      simp only [join]
      exact append_no_char c0 _ _ (append_no_char c0 _ _ hx hsep) hrest

theorem queryFields_getContractsStats (network : String) (addresses : List String)
    (period : String) (hn : ∀ c ∈ network.data, c ≠ '?') (hp : ∀ c ∈ period.data, c ≠ '&')
    (ha : ∀ a ∈ addresses, ∀ c ∈ a.data, c ≠ '&') :
    queryFields (getContractsStats network addresses period).request.url =
      [("period", period), ("contracts", join "," addresses)] := by
  have hurl : (getContractsStats network addresses period).request.url =
      ("/stats/" ++ network ++ "/contracts") ++ "?" ++
        join "&" ["period=" ++ period, "contracts=" ++ join "," addresses] := by
    simp [getContractsStats, Request.url, join, String.ext_iff, String.data_append]
  have hpath : ∀ c ∈ ("/stats/" ++ network ++ "/contracts").data, c ≠ '?' :=
    append_no_char '?' _ _ (append_no_char '?' _ _ (by decide) hn) (by decide)
  have ep : segmentField ("period=" ++ period).data = ("period", period) :=
    segmentField_append "period" period (by decide)
  have ec : segmentField ("contracts=" ++ join "," addresses).data =
      ("contracts", join "," addresses) :=
    segmentField_append "contracts" (join "," addresses) (by decide)
  simp only [String.data_append, String.reduceMk, List.cons_append, List.nil_append] at ep ec
  rw [hurl, queryFields_join _ _ hpath]
  · simp [ep, ec]
  · intro s hs
    simp only [List.mem_cons, List.mem_singleton, List.not_mem_nil, or_false] at hs
    rcases hs with rfl | rfl
    · exact append_no_char '&' _ _ (by decide) hp
    · exact append_no_char '&' _ _ (by decide) (join_no_char '&' "," addresses (by decide) ha)

theorem queryFields_getNetworkStatsSeries (network index period : String)
    (addresses : List String) (hn : ∀ c ∈ network.data, c ≠ '?')
    (hi : ∀ c ∈ index.data, c ≠ '&') (hp : ∀ c ∈ period.data, c ≠ '&')
    (ha : ∀ a ∈ addresses, ∀ c ∈ a.data, c ≠ '&') :
    queryFields (getNetworkStatsSeries network index period addresses).request.url =
      (if addresses.length ≠ 0 then [("address", join "," addresses)] else []) ++
        (if period ≠ "" then [("period", period)] else []) ++
        (if index ≠ "" then [("name", index)] else []) := by
  have hurl : (getNetworkStatsSeries network index period addresses).request.url =
      ("/stats/" ++ network ++ "/series") ++ "?" ++ join "&"
        (let params : List String := []
         let params :=
           if addresses.length ≠ 0 then params ++ ["address=" ++ join "," addresses] else params
         let params := if (JsVal.str period).truthy then params ++ ["period=" ++ period] else params
         if (JsVal.str index).truthy then params ++ ["name=" ++ index] else params) := by
    simp [getNetworkStatsSeries, Request.url, String.ext_iff, String.data_append]
  have hpath : ∀ c ∈ ("/stats/" ++ network ++ "/series").data, c ≠ '?' :=
    append_no_char '?' _ _ (append_no_char '?' _ _ (by decide) hn) (by decide)
  have ea : segmentField ("address=" ++ join "," addresses).data =
      ("address", join "," addresses) :=
    segmentField_append "address" (join "," addresses) (by decide)
  have ep : segmentField ("period=" ++ period).data = ("period", period) :=
    segmentField_append "period" period (by decide)
  have ei : segmentField ("name=" ++ index).data = ("name", index) :=
    segmentField_append "name" index (by decide)
  have sa : ∀ c ∈ ("address=" ++ join "," addresses).data, c ≠ '&' :=
    append_no_char '&' _ _ (by decide) (join_no_char '&' "," addresses (by decide) ha)
  have sp : ∀ c ∈ ("period=" ++ period).data, c ≠ '&' :=
    append_no_char '&' _ _ (by decide) hp
  have si : ∀ c ∈ ("name=" ++ index).data, c ≠ '&' :=
    append_no_char '&' _ _ (by decide) hi
  simp only [String.data_append, String.reduceMk, List.cons_append, List.nil_append] at ea ep ei
  rw [hurl, queryFields_join _ _ hpath]
  · by_cases h1 : addresses.length = 0 <;> by_cases h2 : period = "" <;>
      by_cases h3 : index = "" <;>
      simp [JsVal.truthy, h1, h2, h3, ea, ep, ei]
  · intro s hs
    by_cases h1 : addresses.length = 0 <;> by_cases h2 : period = "" <;>
      by_cases h3 : index = "" <;>
      simp [JsVal.truthy, h1, h2, h3] at hs
    all_goals
      first
        | (rcases hs with rfl | rfl | rfl
           · exact sa
           · exact sp
           · exact si)
        | (rcases hs with rfl | rfl
           first
             | exact sa
             | exact sp
           first
             | exact sp
             | exact si)
        | (subst hs
           first
             | exact sa
             | exact sp
             | exact si)

/-- C10, as stated, fails: with an empty `addresses` list `getContractsStats`
still sends the field `contracts` (with an empty value), and in `search` the `time`
object can define the field `i` although `indices` is empty. -/
theorem c10_counterexample :
    queryParam (getContractsStats "main" [] "all").request.url "contracts" = some "" ∧
    (search "foo" [] 0 [] [] [("i", .str "contract")] 0).request.param "i" =
      some (.str "contract") :=
  ⟨by decide, rfl⟩

/-- C10 (amended): for `search` (fields `i`, `n`, `l`, each when `time` does not
define it), `getContractOperations` (`entrypoints`), `getAccountTransfers`
(`contracts`) and `getNetworkStatsSeries` (`address` in the query string) the field
is absent when the list is empty and otherwise holds the items joined with a comma
in the given order; `getContractsStats` always sends `contracts` with the joined
items, the empty string when the list is empty.  For the two query-string
operations the network is taken without a question mark and the other string
arguments without an ampersand. -/
theorem c10_collection_fields :
    (∀ text indices offset networks languages time group,
      (getField "i" time = none →
        (search text indices offset networks languages time group).request.param "i" =
          if indices.length > 0 then some (.str (join "," indices)) else none) ∧
      (getField "n" time = none →
        (search text indices offset networks languages time group).request.param "n" =
          if networks.length > 0 then some (.str (join "," networks)) else none) ∧
      (getField "l" time = none →
        (search text indices offset networks languages time group).request.param "l" =
          if languages.length > 0 then some (.str (join "," languages)) else none)) ∧
    (∀ network address last_id from_ to_ statuses entrypoints with_storage_diff,
      (getContractOperations network address last_id from_ to_ statuses entrypoints
          with_storage_diff).request.param "entrypoints" =
        if entrypoints.length > 0 then some (.str (join "," entrypoints)) else none) ∧
    (∀ network address token_id contracts size last_id,
      (getAccountTransfers network address token_id contracts size last_id).request.param
          "contracts" =
        if contracts.length > 0 then some (.str (join "," contracts)) else none) ∧
    (∀ network index period addresses, (∀ c ∈ network.data, c ≠ '?') →
      (∀ c ∈ index.data, c ≠ '&') → (∀ c ∈ period.data, c ≠ '&') →
      (∀ a ∈ addresses, ∀ c ∈ a.data, c ≠ '&') →
      queryParam (getNetworkStatsSeries network index period addresses).request.url "address" =
        if addresses.length > 0 then some (join "," addresses) else none) ∧
    (∀ network addresses period, (∀ c ∈ network.data, c ≠ '?') →
      (∀ c ∈ period.data, c ≠ '&') → (∀ a ∈ addresses, ∀ c ∈ a.data, c ≠ '&') →
      queryParam (getContractsStats network addresses period).request.url "contracts" =
        some (join "," addresses)) := by
  refine ⟨?_, ?_, ?_, ?_, ?_⟩
  · intro text indices offset networks languages time group
    refine ⟨?_, ?_, ?_⟩ <;>
    · intro h
      rw [search_param _ _ _ _ _ _ _ _ h]
      simp only []
      split_ifs <;> simp [getField_setField, getField]
  · intro network address last_id from_ to_ statuses entrypoints with_storage_diff
    simp only [getContractOperations, Request.param, Request.config, JsVal.field, getField,
      if_true]
    split_ifs <;> simp [getField_setField, getField]
  · intro network address token_id contracts size last_id
    simp only [getAccountTransfers, Request.param, Request.config, JsVal.field, getField, if_true]
    split_ifs <;> simp [getField_setField, getField]
  · intro network index period addresses hn hi hp ha
    unfold queryParam
    rw [queryFields_getNetworkStatsSeries network index period addresses hn hi hp ha]
    by_cases h1 : addresses.length = 0 <;> by_cases h2 : period = "" <;>
      by_cases h3 : index = "" <;>
      simp [h1, h2, h3, List.lookup, Nat.pos_iff_ne_zero]
  · intro network addresses period hn hp ha
    unfold queryParam
    rw [queryFields_getContractsStats network addresses period hn hp ha]
    simp [List.lookup]

/-- C10 (amended) at concrete calls. -/
theorem c10_collection_fields_witness :
    getField "n" [("s", JsVal.num 1)] = none ∧
    (search "foo" [] 0 ["mainnet", "delphinet"] [] [("s", .num 1)] 0).request.param "n" =
      some (.str "mainnet,delphinet") ∧
    queryParam (getNetworkStatsSeries "main" "users" "month" []).request.url "address" = none ∧
    queryParam (getNetworkStatsSeries "main" "users" "month" ["KT1b", "KT1a"]).request.url
      "address" = some "KT1b,KT1a" ∧
    queryParam (getContractsStats "main" ["KT1b", "KT1a"] "all").request.url "contracts" =
      some "KT1b,KT1a" :=
  ⟨rfl,
   (c10_collection_fields.1 "foo" [] 0 ["mainnet", "delphinet"] [] [("s", .num 1)] 0).2.1 rfl,
   c10_collection_fields.2.2.2.1 "main" "users" "month" []
     (by decide) (by decide) (by decide) (by decide),
   c10_collection_fields.2.2.2.1 "main" "users" "month" ["KT1b", "KT1a"]
     (by decide) (by decide) (by decide) (by decide),
   c10_collection_fields.2.2.2.2 "main" ["KT1b", "KT1a"] "all"
     (by decide) (by decide) (by decide)⟩

/-! ## C11 -/

/-- C11: in `getContractOperations` the parameters hold `status` exactly when
`statuses` has 1, 2 or 3 items, and then it is the items joined with a comma in
the given order; an empty list and a list of 4 (or more) items give no `status`. -/
theorem c11_status_filter (network address last_id : String) (from_ to_ : Int)
    (statuses entrypoints : List String) (with_storage_diff : Bool) :
    (getContractOperations network address last_id from_ to_ statuses entrypoints
        with_storage_diff).request.param "status" =
      (if statuses.length = 1 ∨ statuses.length = 2 ∨ statuses.length = 3
        then some (.str (join "," statuses)) else none) := by
  have hiff : (statuses.length > 0 ∧ statuses.length < 4) ↔
      (statuses.length = 1 ∨ statuses.length = 2 ∨ statuses.length = 3) := by omega
  simp only [getContractOperations, Request.param, Request.config, JsVal.field, getField,
    if_true, hiff]
  split_ifs <;> simp [getField_setField, getField]

/-! ## C12 -/

theorem queryFields_getTokenVolumeSeries_noSlug (network period contract : String)
    (token_id : Int) (hn : ∀ c ∈ network.data, c ≠ '?') (hp : ∀ c ∈ period.data, c ≠ '&')
    (hc : ∀ c ∈ contract.data, c ≠ '&') :
    queryFields (getTokenVolumeSeries network period contract token_id "").request.url =
      [("contract", contract), ("period", period), ("token_id", numToString token_id)] := by
  have hurl : (getTokenVolumeSeries network period contract token_id "").request.url =
      ("/tokens/" ++ network ++ "/series") ++ "?" ++ join "&"
        ["contract=" ++ contract, "period=" ++ period, "token_id=" ++ numToString token_id] := by
    simp [getTokenVolumeSeries, Request.url, String.ext_iff, String.data_append]
  have hpath : ∀ c ∈ ("/tokens/" ++ network ++ "/series").data, c ≠ '?' :=
    append_no_char '?' _ _ (append_no_char '?' _ _ (by decide) hn) (by decide)
  have ec : segmentField ("contract=" ++ contract).data = ("contract", contract) :=
    segmentField_append "contract" contract (by decide)
  have ep : segmentField ("period=" ++ period).data = ("period", period) :=
    segmentField_append "period" period (by decide)
  have et : segmentField ("token_id=" ++ numToString token_id).data =
      ("token_id", numToString token_id) :=
    segmentField_append "token_id" (numToString token_id) (by decide)
  simp only [String.data_append, String.reduceMk, List.cons_append, List.nil_append] at ec ep et
  rw [hurl, queryFields_join _ _ hpath]
  · simp [ec, ep, et]
  · intro s hs
    simp only [List.mem_cons, List.mem_singleton, List.not_mem_nil, or_false] at hs
    rcases hs with rfl | rfl | rfl
    · exact append_no_char '&' _ _ (by decide) hc
    · exact append_no_char '&' _ _ (by decide) hp
    · exact append_no_char '&' _ _ (by decide) (numToString_no_amp token_id)

/-- C12, as stated, fails: called with the empty string, `getContractEntrypointData`
still puts `format` (holding the empty string) into the body, and
`getContractBigMapKeys` still puts `q` (with an empty value) into the query string. -/
theorem c12_counterexample :
    (getContractEntrypointData "main" "KT1a" (.str "default") (.obj []) "").request.bodyField
      "format" = some (.str "") ∧
    queryParam (getContractBigMapKeys "main" "17" "" 0).request.url "q" = some "" :=
  ⟨rfl, by decide⟩

/-- C12 (amended): called with the empty string, `getContractOperations` and
`getAccountTransfers` (`last_id`), `getContractCode` (`protocol`) and
`getTokenVolumeSeries` (`slug`) send a request in which the field does not appear.
`getContractEntrypointData` always puts `format` into the body and
`getContractBigMapKeys` always puts `q` into the query string, whatever the value,
the empty string included.  For the query-string operations the path arguments
are taken without a question mark and the other strings without an ampersand. -/
theorem c12_empty_string_fields :
    (∀ network address from_ to_ statuses entrypoints with_storage_diff,
      (getContractOperations network address "" from_ to_ statuses entrypoints
        with_storage_diff).request.param "last_id" = none) ∧
    (∀ network address token_id contracts size,
      (getAccountTransfers network address token_id contracts size "").request.param "last_id" =
        none) ∧
    (∀ network address level,
      (getContractCode network address "" level).request.param "protocol" = none) ∧
    (∀ network period contract token_id, (∀ c ∈ network.data, c ≠ '?') →
      (∀ c ∈ period.data, c ≠ '&') → (∀ c ∈ contract.data, c ≠ '&') →
      queryParam (getTokenVolumeSeries network period contract token_id "").request.url "slug" =
        none) ∧
    (∀ network address name data format,
      (getContractEntrypointData network address name data format).request.bodyField "format" =
        some (.str format)) ∧
    (∀ network ptr q offset, (∀ c ∈ network.data, c ≠ '?') → (∀ c ∈ ptr.data, c ≠ '?') →
      (∀ c ∈ q.data, c ≠ '&') →
      queryParam (getContractBigMapKeys network ptr q offset).request.url "q" = some q) := by
  refine ⟨?_, ?_, ?_, ?_, ?_, ?_⟩
  · intro network address from_ to_ statuses entrypoints with_storage_diff
    simp only [getContractOperations, Request.param, Request.config, JsVal.field, getField,
      if_true]
    split_ifs <;> simp_all [getField_setField, getField]
  · intro network address token_id contracts size
    simp only [getAccountTransfers, Request.param, Request.config, JsVal.field, getField, if_true]
    split_ifs <;> simp_all [getField_setField, getField]
  · intro network address level
    by_cases h : level > 0 <;>
      simp [getContractCode, Request.param, Request.config, JsVal.field, getField, setField, h]
  · intro network period contract token_id hn hp hc
    unfold queryParam
    rw [queryFields_getTokenVolumeSeries_noSlug network period contract token_id hn hp hc]
    simp [List.lookup]
  · intro network address name data format
    simp [getContractEntrypointData, Request.bodyField, Request.data, JsVal.field, getField]
  · intro network ptr q offset hn hp hq
    unfold queryParam
    rw [queryFields_getContractBigMapKeys network ptr q offset hn hp hq]
    simp [List.lookup]

/-- C12 (amended) at concrete calls of the two query-string operations. -/
theorem c12_empty_string_fields_witness :
    queryParam (getTokenVolumeSeries "main" "month" "KT1a" 0 "").request.url "slug" = none ∧
    queryParam (getContractBigMapKeys "main" "17" "" 0).request.url "q" = some "" :=
  ⟨c12_empty_string_fields.2.2.2.1 "main" "month" "KT1a" 0 (by decide) (by decide) (by decide),
   c12_empty_string_fields.2.2.2.2.2 "main" "17" "" 0 (by decide) (by decide) (by decide)⟩

/-! ## C14 -/

/-- C14: the status check rejects with `RequestFailedError` exactly when the
status differs from 200.  So does every status-checked operation other than
`getAccountMetadata` and `resolveDomain`, for which 204 is the one further status
that does not reject; the error carries the status.  In particular 201, 202 and
(apart from those two operations) 204 are reported as failures. -/
theorem c14_requestFailed_iff_not_200 (r : Response) :
    (checkStatus (.response r) = .error (.requestFailed (some r.status) (.response r)) ↔
      r.status ≠ 200) ∧
    (returnResponseData (.response r) = .error (.requestFailed (some r.status) (.response r)) ↔
      r.status ≠ 200) ∧
    (∀ op : Op, op.statusChecked = true → op ≠ .getAccountMetadata → op ≠ .resolveDomain →
      (op.respond (.resolved (.response r)) =
          .error (.requestFailed (some r.status) (.response r)) ↔ r.status ≠ 200)) ∧
    (∀ op : Op, op = .getAccountMetadata ∨ op = .resolveDomain →
      (op.respond (.resolved (.response r)) =
          .error (.requestFailed (some r.status) (.response r)) ↔
        r.status ≠ 200 ∧ r.status ≠ 204)) := by
  have hcs : checkStatus (.response r) = .error (.requestFailed (some r.status) (.response r)) ↔
      r.status ≠ 200 := by
    rw [checkStatus_response]
    by_cases h : r.status = 200 <;> simp [h]
  refine ⟨hcs, by rw [returnResponseData_eq]; exact hcs, ?_, ?_⟩
  · intro op hop h1 h2
    by_cases h : r.status = 200 <;>
    cases op <;>
      simp_all [Op.respond, Op.onResolved, Op.hasCatch, Op.statusChecked, Outcome.toPromise,
        Except.bind, checkStatus_response, returnResponseData_eq, guardedCheck_response,
        guardedNullCheck_response, entrypointDataCheck_response]
  · intro op hop
    by_cases h : r.status = 200 <;> by_cases h' : r.status = 204 <;>
    rcases hop with rfl | rfl <;>
      simp_all [Op.respond, Op.onResolved, Op.hasCatch, Outcome.toPromise, Except.bind,
        checkStatus_response, metadataCheck_response, domainCheck_response]

/-- C14 at a 204 response to `getAccountInfo`. -/
theorem c14_requestFailed_iff_not_200_witness :
    Op.getAccountInfo.respond (.resolved (.response ⟨204, .null, .null⟩)) =
      .error (.requestFailed (some 204) (.response ⟨204, .null, .null⟩)) :=
  ((c14_requestFailed_iff_not_200 ⟨204, .null, .null⟩).2.2.1 .getAccountInfo rfl
    (by decide) (by decide)).2 (by decide)

/-! ## C15 -/

theorem not_suffix_run_operation_trace (pre : List Char) :
    ¬ ("run_operation".data <:+ pre ++ "trace".data) := by
  intro h
  have h' := List.reverse_prefix.2 h
  have e1 : ("run_operation".data).reverse = 'n' :: "oitarepo_nur".data := by decide
  have e2 : (pre ++ "trace".data).reverse = 'e' :: ("cart".data ++ pre.reverse) := by
    rw [List.reverse_append]
    rfl
  rw [e1, e2] at h'
  have := (List.cons_prefix_cons.1 h').1
  exact absurd this (by decide)

/-- C15: in `getContractEntrypointTrace` the path ends in `run_operation` exactly
when `source` is truthy and in `trace` otherwise; the body always holds `name` and
`data`, holds `source` exactly when `source` is truthy, and holds `amount`, as
`parseInt(amount)`, exactly when `amount` is truthy, so the amounts `0`, `''`,
`null` and `undefined` are never sent. -/
theorem c15_entrypoint_trace (parseInt : JsVal → JsVal) (network address : String)
    (name data source amount : JsVal) :
    (getContractEntrypointTrace parseInt network address name data source amount).request.url =
      "/contract/" ++ network ++ "/" ++ address ++ "/entrypoints/" ++
        (if source.truthy then "run_operation" else "trace") ∧
    ("run_operation".data <:+
        (getContractEntrypointTrace parseInt network address name data source
          amount).request.url.data ↔ source.truthy = true) ∧
    (source.truthy = false →
      "trace".data <:+
        (getContractEntrypointTrace parseInt network address name data source
          amount).request.url.data) ∧
    (getContractEntrypointTrace parseInt network address name data source
        amount).request.bodyField "name" = some name ∧
    (getContractEntrypointTrace parseInt network address name data source
        amount).request.bodyField "data" = some data ∧
    (getContractEntrypointTrace parseInt network address name data source
        amount).request.bodyField "source" = (if source.truthy then some source else none) ∧
    (getContractEntrypointTrace parseInt network address name data source
        amount).request.bodyField "amount" =
      (if amount.truthy then some (parseInt amount) else none) ∧
    (amount = .num 0 ∨ amount = .str "" ∨ amount = .null ∨ amount = .undefined →
      (getContractEntrypointTrace parseInt network address name data source
        amount).request.bodyField "amount" = none) := by
  have hurl : (getContractEntrypointTrace parseInt network address name data source
      amount).request.url = "/contract/" ++ network ++ "/" ++ address ++ "/entrypoints/" ++
        (if source.truthy then "run_operation" else "trace") := rfl
  have hamount : (getContractEntrypointTrace parseInt network address name data source
      amount).request.bodyField "amount" =
        (if amount.truthy then some (parseInt amount) else none) := by
    simp only [getContractEntrypointTrace, Request.bodyField, Request.data, JsVal.field]
    split_ifs <;> simp [getField_setField, getField]
  refine ⟨hurl, ?_, ?_, ?_, ?_, ?_, hamount, ?_⟩
  · rw [hurl]
    by_cases h : source.truthy = true
    · simp only [h, if_true, iff_true, String.data_append]
      exact List.suffix_append _ _
    · simp only [h, if_false, iff_false, String.data_append, Bool.false_eq_true]
      exact not_suffix_run_operation_trace _
  · intro h
    rw [hurl]
    simp only [h, if_false, String.data_append, Bool.false_eq_true]
    exact List.suffix_append _ _
  · simp only [getContractEntrypointTrace, Request.bodyField, Request.data, JsVal.field]
    split_ifs <;> simp [getField_setField, getField]
  · simp only [getContractEntrypointTrace, Request.bodyField, Request.data, JsVal.field]
    split_ifs <;> simp [getField_setField, getField]
  · simp only [getContractEntrypointTrace, Request.bodyField, Request.data, JsVal.field]
    split_ifs <;> simp [getField_setField, getField]
  · intro h
    rw [hamount]
    rcases h with rfl | rfl | rfl | rfl <;> rfl

/-- C15 at concrete calls: an amount of `0` is left out, and without a source the
path ends in `trace`. -/
theorem c15_entrypoint_trace_witness :
    (getContractEntrypointTrace (fun v => v) "main" "KT1a" (.str "default") (.obj []) .null
        (.num 0)).request.bodyField "amount" = none ∧
    "trace".data <:+
      (getContractEntrypointTrace (fun v => v) "main" "KT1a" (.str "default") (.obj []) .null
        (.num 0)).request.url.data :=
  ⟨(c15_entrypoint_trace (fun v => v) "main" "KT1a" (.str "default") (.obj []) .null
      (.num 0)).2.2.2.2.2.2.2 (Or.inl rfl),
   (c15_entrypoint_trace (fun v => v) "main" "KT1a" (.str "default") (.obj []) .null
      (.num 0)).2.2.1 rfl⟩

/-! ## C16 -/

/-- For a count of at least 2 and a timestamp in the past the hour remainder of
`showDaysAgo` is an integer `r` with `0 ≤ r < 24 * (d - 1)`. -/
theorem hoursDiff_range (elapsed : Elapsed) (d : Int) (hd : 2 ≤ d) (hh : 0 ≤ elapsed.hour) :
    ∃ r, hoursDiff elapsed d = some r ∧ 0 ≤ r ∧ r < 24 * (d - 1) := by
  have hpos : 0 < 24 * (d - 1) := by omega
  have hne : 24 * (d - 1) ≠ 0 := by omega
  refine ⟨elapsed.hour.tmod (24 * (d - 1)), ?_, Int.tmod_nonneg _ hh, Int.tmod_lt_of_pos _ hpos⟩
  simp [hoursDiff, jsMod, hne]

/-- C16 fails on the code at the count 1: the modulus `24 * (d - 1)` is zero, the
hour remainder is `NaN`, and `showDaysAgo` formats `NaN` hours. -/
theorem c16_modulus_zero_at_one :
    24 * ((1 : Int) - 1) = 0 ∧
    hoursDiff ⟨13000, 780000, 541⟩ 1 = none ∧
    ∀ plural : JsNum → String → String,
      showDaysAgo plural ⟨13000, 780000, 541⟩ 1 (.bool true) =
        plural (some 541) "day" ++ " " ++ plural none "hr" ++ " ago" :=
  ⟨by decide, rfl, fun _ => rfl⟩

/-! ## C13 -/

/-- Under the single-slot tracker a second `getHead` supersedes the first: the
first call settles with the no-result value when the second is made, and a
response arriving for it later is dropped. -/
theorem getHead_superseded :
    (((World.start none).issue singleSlotTracker getHead).issue singleSlotTracker getHead).settled
      = [(0, .ok .undefined)] ∧
    ((((World.start none).issue singleSlotTracker getHead).issue singleSlotTracker
        getHead).deliver 0 (.resolved (.response ⟨200, .str "head", .null⟩))).settled =
      [(0, .ok .undefined)] :=
  ⟨rfl, rfl⟩

/-- C13, as stated, fails: `search` is sent with `this.api.get`, and even under a
tracker that keeps one slot for all registered requests, `search("foo")` followed
at once by `search("foobar")` leaves both in flight and both resolve with server
data. -/
theorem c13_counterexample :
    (search "foo" [] 0 [] [] [] 0).request.transport = .axios ∧
    (((World.start none).issue singleSlotTracker (search "foo" [] 0 [] [] [] 0)).issue
        singleSlotTracker (search "foobar" [] 0 [] [] [] 0)).settled = [] ∧
    (((((World.start none).issue singleSlotTracker (search "foo" [] 0 [] [] [] 0)).issue
        singleSlotTracker (search "foobar" [] 0 [] [] [] 0)).deliver 0
          (.resolved (.response ⟨200, .str "results for foo", .null⟩))).deliver 1
          (.resolved (.response ⟨200, .str "results for foobar", .null⟩))).settled =
      [(0, .ok (.str "results for foo")), (1, .ok (.str "results for foobar"))] :=
  ⟨rfl, rfl, rfl⟩

/-- C13 (amended): `search` is sent with `this.api.get`, outside the cancellation
tracker.  Whatever the tracker does, a call of `search` leaves the tracker state
and the settled promises as they are and cancels no call in flight; when `search`
is called twice in immediate succession both calls stay in flight, and each
settles by its own transport outcome, in either order of arrival. -/
theorem c13_search_bypasses_tracker {σ : Type} (T : Tracker σ) (w : World σ)
    (text text' : String) (indices indices' : List String) (offset offset' : Int)
    (networks networks' languages languages' : List String) (time time' : Fields)
    (group group' : Int) (out out' : Outcome) :
    (search text indices offset networks languages time group).request.transport = .axios ∧
    (w.issue T (search text indices offset networks languages time group)).tracker =
      w.tracker ∧
    (w.issue T (search text indices offset networks languages time group)).settled =
      w.settled ∧
    (w.issue T (search text indices offset networks languages time group)).inflight =
      w.inflight ++ [⟨w.issued, search text indices offset networks languages time group⟩] ∧
    World.settled (((((World.start w.tracker).issue T
        (search text indices offset networks languages time group)).issue T
        (search text' indices' offset' networks' languages' time' group')).deliver 0
          out).deliver 1 out') =
      [(0, Op.search.respond out), (1, Op.search.respond out')] ∧
    World.settled (((((World.start w.tracker).issue T
        (search text indices offset networks languages time group)).issue T
        (search text' indices' offset' networks' languages' time' group')).deliver 1
          out').deliver 0 out) =
      [(1, Op.search.respond out'), (0, Op.search.respond out)] := by
  have ht : ∀ (t : String) (i : List String) (o : Int) (n l : List String) (tm : Fields)
      (g : Int), (search t i o n l tm g).request.transport = .axios := fun _ _ _ _ _ _ _ => rfl
  have hop : ∀ (t : String) (i : List String) (o : Int) (n l : List String) (tm : Fields)
      (g : Int), (search t i o n l tm g).op = .search := fun _ _ _ _ _ _ _ => rfl
  refine ⟨ht _ _ _ _ _ _ _, ?_, ?_, ?_, ?_, ?_⟩ <;>
    simp [World.issue, World.deliver, World.start, ht, hop]

end BetterCallApi
